import Mathlib

/-!
# The PVR guide window's timeline refresh (`xbmc/pvr/windows/GUIWindowPVRGuide.cpp`)

A shallow embedding of the state shared between the guide window and its
refresh worker (`CGUIWindowPVRGuideBase`, `CPVRRefreshTimelineItemsThread`)
and of the operations acting on it, followed by theorems about them.

Conventions of the embedding

* A member function becomes a function from the object's state (and the values
  it reads from its collaborators) to the new state (and the values it hands
  to its collaborators).
* Every operation is taken as one step: the theorems speak about sequences of
  complete operations. Where the source itself hands control to the worker
  (`DoRefresh`), what the worker does meanwhile is an input of the operation.
* Collaborators whose code is not part of the file (base classes, the grid
  control, the channel group, the settings) appear as inputs.
-/

namespace PVR

/-! ## Dates -/

/-- Modelled from the spec: the class `CDateTime` is declared outside the file; the spec
describes a date of the channel group as an optional timestamp ("possibly
invalid/unknown"). A date is a timestamp in seconds together with its validity state. -/
structure CDateTime where
  m_valid : Bool
  m_time : Int
  deriving DecidableEq, Repr

namespace CDateTime

/-- Validity query, `CDateTime::IsValid`. -/
def IsValid (d : CDateTime) : Bool := d.m_valid

/-- Comparison `a < b` of two dates, on their timestamps. -/
def lt (a b : CDateTime) : Bool := decide (a.m_time < b.m_time)

/-- Subtraction `d - span` of a time span (in seconds) from a date. -/
def sub (d : CDateTime) (span : Int) : CDateTime := { d with m_time := d.m_time - span }

end CDateTime

/-- Modelled from the spec: `CDateTimeSpan(day, hour, minute, second)` is declared outside
the file; it is the length of the span, here in seconds (the retention length is "days"). -/
def CDateTimeSpan (day hour minute second : Int) : Int :=
  ((day * 24 + hour) * 60 + minute) * 60 + second

/-! ## Messages -/

/-- The observable messages named in the file; every other enumerator is `ObservableMessageOther`. -/
inductive ObservableMessage where
  | ObservableMessageEpg
  | ObservableMessageEpgContainer
  | ObservableMessageChannelGroupReset
  | ObservableMessageChannelGroup
  | ObservableMessageChannelGroupsLoaded
  | ObservableMessageTimersReset
  | ObservableMessageTimers
  | ObservableMessageOther (code : Nat)
  deriving DecidableEq, Repr

/-- The GUI message ids the window's `OnMessage` switches on; every other id is `GUI_MSG_OTHER`. -/
inductive GUIMessageId where
  | GUI_MSG_CLICKED
  | GUI_MSG_CHANGE_VIEW_MODE
  | GUI_MSG_REFRESH_LIST
  | GUI_MSG_OTHER (id : Nat)
  deriving DecidableEq, Repr

/-- A GUI message: its id, its sender and its first parameter. -/
structure CGUIMessage where
  GetMessage : GUIMessageId
  GetSenderId : Int
  GetParam1 : ObservableMessage
  deriving DecidableEq, Repr

/-! ## State -/

/-- The worker thread object: the stop flag of `CThread` and the two events. -/
structure CPVRRefreshTimelineItemsThread where
  m_bStop : Bool
  m_ready : Bool
  m_done : Bool
  deriving DecidableEq, Repr

/-- The members of `CGUIWindowPVRGuideBase` the file reads and writes. `Item` is a schedule
entry (`CFileItem`), an item list (`CFileItemList`) is a list of entries; `Group` is the
channel group (`CPVRChannelGroup`), compared by value. Smart pointers are options. -/
structure CGUIWindowPVRGuideBase (Item Group : Type) where
  m_bRefreshTimelineItems : Bool
  m_cachedChannelGroup : Option Group
  m_newTimeline : Option (List Item)
  m_vecItems : Option (List Item)
  m_bChannelSelectionRestored : Bool
  m_refreshTimelineItemsThread : Option CPVRRefreshTimelineItemsThread
  deriving DecidableEq, Repr

/-- Calls that leave the file: into the base classes `CGUIWindowPVRBase` and
`CGUIMediaWindow` and into the click handling, which only drives dialogs and GUI actions. -/
inductive BaseCall where
  | Notify (msg : ObservableMessage)
  | ClearData
  | OnDeinitWindow (nextWindowID : Int)
  | OnMessage (message : CGUIMessage)
  | Refresh (clearCache : Bool)
  | SetInvalid
  | InitChannelGroup
  | Clicked (message : CGUIMessage)
  deriving DecidableEq, Repr

/-- The enclosing framework: what a call that leaves the file returns and what it does to the
window's state (through the window's own virtual functions). -/
abbrev Framework (Item Group : Type) :=
  BaseCall → CGUIWindowPVRGuideBase Item Group → Bool × CGUIWindowPVRGuideBase Item Group

/-- What `InitEpgGridControl` reads from the grid control: whether `GetGridControl()` is
non-null, the result of `SetChannel` and the result of `HasData`. -/
structure GridControlView where
  gridControl : Bool
  SetChannel : Bool
  HasData : Bool
  deriving DecidableEq, Repr

/-- What one call of `RefreshTimelineItems` reads from its collaborators: whether
`GetGridControl()` is non-null, `GetChannelGroup()`, what `GetEPGAll` of that group puts into
the fresh timeline, the group's first and last EPG date, the current UTC time (a valid
date) and `GetPastDaysToDisplay()`. -/
structure RefreshEnv (Item Group : Type) where
  gridControl : Bool
  channelGroup : Option Group
  epgAll : List Item
  firstEPGDate : CDateTime
  lastEPGDate : CDateTime
  currentTime : Int
  iPastDays : Int
  deriving DecidableEq, Repr

/-- Outcome of `RefreshTimelineItems`: the returned value, the window afterwards and the
arguments of the call of `SetTimelineItems` on the grid control, if it was made. -/
structure RefreshResult (Item Group : Type) where
  ret : Bool
  window : CGUIWindowPVRGuideBase Item Group
  setTimelineItems : Option (List Item × CDateTime × CDateTime)
  deriving DecidableEq, Repr

variable {Item Group : Type}

/-! ## The worker thread object -/

namespace CPVRRefreshTimelineItemsThread

/-- The constructor followed by `Create()`: `m_ready(true)`, `m_done(false)`, not stopped. -/
def create : CPVRRefreshTimelineItemsThread :=
  { m_bStop := false, m_ready := true, m_done := false }

/-- The function `Stop`: `StopThread(false)` raises the stop flag, then `m_ready.Set()`. -/
def Stop (t : CPVRRefreshTimelineItemsThread) : CPVRRefreshTimelineItemsThread :=
  { t with m_bStop := true, m_ready := true }

end CPVRRefreshTimelineItemsThread

/-! ## The window -/

namespace CGUIWindowPVRGuideBase

/-- The constructor: no refresh requested, nothing cached, no worker. -/
def init (vecItems : Option (List Item)) : CGUIWindowPVRGuideBase Item Group :=
  { m_bRefreshTimelineItems := false
    m_cachedChannelGroup := none
    m_newTimeline := none
    m_vecItems := vecItems
    m_bChannelSelectionRestored := false
    m_refreshTimelineItemsThread := none }

/-- The function `StopRefreshTimelineItemsThread`: stops the worker if there is one. -/
def StopRefreshTimelineItemsThread (w : CGUIWindowPVRGuideBase Item Group) :
    CGUIWindowPVRGuideBase Item Group :=
  { w with m_refreshTimelineItemsThread :=
      w.m_refreshTimelineItemsThread.map CPVRRefreshTimelineItemsThread.Stop }

/-- The function `StartRefreshTimelineItemsThread`: stops the old worker, installs a new one. -/
def StartRefreshTimelineItemsThread (w : CGUIWindowPVRGuideBase Item Group) :
    CGUIWindowPVRGuideBase Item Group :=
  { StopRefreshTimelineItemsThread w with
    m_refreshTimelineItemsThread := some CPVRRefreshTimelineItemsThread.create }

/-- The destructor body: unregisters the observer, assigns `false` to the refresh flag and
stops the worker. -/
def destructor (w : CGUIWindowPVRGuideBase Item Group) : CGUIWindowPVRGuideBase Item Group :=
  StopRefreshTimelineItemsThread { w with m_bRefreshTimelineItems := false }

/-- The function `InitEpgGridControl`. -/
def InitEpgGridControl (g : GridControlView) (w : CGUIWindowPVRGuideBase Item Group) :
    CGUIWindowPVRGuideBase Item Group :=
  let w1 := if g.gridControl then { w with m_bChannelSelectionRestored := g.SetChannel } else w
  let w2 := if g.gridControl && !g.HasData then { w1 with m_bRefreshTimelineItems := true } else w1
  StartRefreshTimelineItemsThread w2

/-- The function `ClearData`: drops the cached group and the pending timeline, then the base
class's `ClearData`. -/
def ClearData (fw : Framework Item Group) (w : CGUIWindowPVRGuideBase Item Group) :
    CGUIWindowPVRGuideBase Item Group :=
  (fw BaseCall.ClearData { w with m_cachedChannelGroup := none, m_newTimeline := none }).2

/-- The function `OnDeinitWindow`. -/
def OnDeinitWindow (fw : Framework Item Group) (nextWindowID : Int)
    (w : CGUIWindowPVRGuideBase Item Group) : CGUIWindowPVRGuideBase Item Group :=
  let w1 := StopRefreshTimelineItemsThread w
  let w2 := { w1 with m_bChannelSelectionRestored := false }
  let w3 :=
    match w2.m_vecItems, w2.m_newTimeline with
    | some items, none => { w2 with m_newTimeline := some items }
    | _, _ => w2
  (fw (BaseCall.OnDeinitWindow nextWindowID) w3).2

/-- The condition of `Notify`: the messages on which it requests a refresh. -/
def triggersRefresh (msg : ObservableMessage) : Bool :=
  decide (msg = ObservableMessage.ObservableMessageEpg ∨
    msg = ObservableMessage.ObservableMessageEpgContainer ∨
    msg = ObservableMessage.ObservableMessageChannelGroupReset ∨
    msg = ObservableMessage.ObservableMessageChannelGroup)

/-- The function `Notify`. -/
def Notify (fw : Framework Item Group) (msg : ObservableMessage)
    (w : CGUIWindowPVRGuideBase Item Group) : CGUIWindowPVRGuideBase Item Group :=
  if triggersRefresh msg then
    { w with m_bRefreshTimelineItems := true }
  else
    (fw (BaseCall.Notify msg) w).2

/-- A sequence of calls of `Notify`, one for each message, in order. -/
def notifyAll (fw : Framework Item Group) (msgs : List ObservableMessage)
    (w : CGUIWindowPVRGuideBase Item Group) : CGUIWindowPVRGuideBase Item Group :=
  msgs.foldl (fun acc msg => Notify fw msg acc) w

/-- The display window of `RefreshTimelineItems` (the dates handed to `SetTimelineItems`),
from the group's first and last EPG date, the current time and the days to display. -/
def displayWindow (firstEPGDate lastEPGDate : CDateTime) (currentTime iPastDays : Int) :
    CDateTime × CDateTime :=
  let currentDate : CDateTime := { m_valid := true, m_time := currentTime }
  let startDate := if !firstEPGDate.IsValid then currentDate else firstEPGDate
  let endDate := if !lastEPGDate.IsValid || lastEPGDate.lt startDate then startDate else lastEPGDate
  let maxPastDate := currentDate.sub (CDateTimeSpan iPastDays 0 0 0)
  let startDate2 := if startDate.lt maxPastDate then maxPastDate else startDate
  (startDate2, endDate)

/-- The function `RefreshTimelineItems`. -/
def RefreshTimelineItems (env : RefreshEnv Item Group) (w : CGUIWindowPVRGuideBase Item Group) :
    RefreshResult Item Group :=
  let bRefreshTimelineItems := w.m_bRefreshTimelineItems
  let w1 := { w with m_bRefreshTimelineItems := false }
  if bRefreshTimelineItems then
    if env.gridControl then
      match env.channelGroup with
      | none => { ret := false, window := w1, setTimelineItems := none }
      | some group =>
        let timeline := env.epgAll
        let dates := displayWindow env.firstEPGDate env.lastEPGDate env.currentTime env.iPastDays
        { ret := true
          window := { w1 with m_newTimeline := some timeline, m_cachedChannelGroup := some group }
          setTimelineItems := some (timeline, dates.1, dates.2) }
    else { ret := false, window := w1, setTimelineItems := none }
  else { ret := false, window := w1, setTimelineItems := none }

/-- The function `SetInvalid`: invalidates the grid control, then the base class's
`SetInvalid`. -/
def SetInvalid (fw : Framework Item Group) (w : CGUIWindowPVRGuideBase Item Group) :
    CGUIWindowPVRGuideBase Item Group :=
  (fw BaseCall.SetInvalid w).2

/-- The function `OnMessage`. The handling of `GUI_MSG_CLICKED` touches no member of the
window: it reads the selected item and drives GUI actions, dialogs, the grid control and the
base classes, and is one call into the framework that yields `bReturn`. The view `g` is the
grid control as `InitEpgGridControl` finds it. -/
def OnMessage (fw : Framework Item Group) (g : GridControlView) (message : CGUIMessage)
    (w : CGUIWindowPVRGuideBase Item Group) : Bool × CGUIWindowPVRGuideBase Item Group :=
  let r : Bool × CGUIWindowPVRGuideBase Item Group :=
    match message.GetMessage with
    | GUIMessageId.GUI_MSG_CLICKED => fw (BaseCall.Clicked message) w
    | GUIMessageId.GUI_MSG_CHANGE_VIEW_MODE =>
      let w1 := (fw (BaseCall.OnMessage message) w).2
      let w2 := { w1 with m_bRefreshTimelineItems := true }
      let w3 := InitEpgGridControl g w2
      (true, (fw (BaseCall.Refresh true) w3).2)
    | GUIMessageId.GUI_MSG_REFRESH_LIST =>
      match message.GetParam1 with
      | ObservableMessage.ObservableMessageChannelGroupsLoaded =>
        (false, InitEpgGridControl g (fw BaseCall.InitChannelGroup w).2)
      | ObservableMessage.ObservableMessageChannelGroupReset
      | ObservableMessage.ObservableMessageChannelGroup
      | ObservableMessage.ObservableMessageEpg
      | ObservableMessage.ObservableMessageEpgContainer =>
        (false, (fw (BaseCall.Refresh true) w).2)
      | ObservableMessage.ObservableMessageTimersReset
      | ObservableMessage.ObservableMessageTimers =>
        (false, SetInvalid fw w)
      | ObservableMessage.ObservableMessageOther _ => (false, w)
    | GUIMessageId.GUI_MSG_OTHER _ => (false, w)
  if r.1 then (true, r.2) else fw (BaseCall.OnMessage message) r.2

end CGUIWindowPVRGuideBase

/-! ## `GetDirectory` -/

namespace CPVRRefreshTimelineItemsThread

/-- The function `DoRefresh`, up to its wait: `m_ready.Set()`, `m_done.Reset()`. -/
def DoRefresh (t : CPVRRefreshTimelineItemsThread) : CPVRRefreshTimelineItemsThread :=
  { t with m_ready := true, m_done := false }

/-- The worker's side of one pass, seen from the thread object: it leaves its wait
(`m_ready.Reset()`) and completes a pass (`m_done.Set()`). -/
def passDone (t : CPVRRefreshTimelineItemsThread) : CPVRRefreshTimelineItemsThread :=
  { t with m_ready := false, m_done := true }

end CPVRRefreshTimelineItemsThread

/-- Outcome of `GetDirectory`: the returned value, the caller's item list, the window
afterwards and whether `DoRefresh` was called. -/
structure GetDirectoryResult (Item Group : Type) where
  ret : Bool
  items : List Item
  window : CGUIWindowPVRGuideBase Item Group
  doRefresh : Bool
  deriving DecidableEq, Repr

namespace CGUIWindowPVRGuideBase

/-- First locked block of `GetDirectory`: the group change test. `channelGroup` is
`GetChannelGroup()`; the result is `none` where the source dereferences a null pointer. -/
def detectGroupChange [DecidableEq Group] (channelGroup : Option Group)
    (w : CGUIWindowPVRGuideBase Item Group) : Option (Bool × CGUIWindowPVRGuideBase Item Group) :=
  match w.m_cachedChannelGroup with
  | none => some (false, w)
  | some cached =>
    match channelGroup with
    | none => none
    | some current =>
      if cached ≠ current then some (true, { w with m_bRefreshTimelineItems := true })
      else some (false, w)

/-- The call `m_refreshTimelineItemsThread->DoRefresh()` of `GetDirectory`. While the caller
waits (at most 100 ms) the woken worker may complete a pass of its loop: `worker` is what its
`RefreshTimelineItems` reads then, or `none` if the wait ends first. The result is `none`
where the source dereferences a null pointer. -/
def callDoRefresh (worker : Option (RefreshEnv Item Group))
    (w : CGUIWindowPVRGuideBase Item Group) : Option (CGUIWindowPVRGuideBase Item Group) :=
  match w.m_refreshTimelineItemsThread with
  | none => none
  | some t =>
    let w1 := { w with m_refreshTimelineItemsThread := some t.DoRefresh }
    match worker with
    | none => some w1
    | some env =>
      let w2 := (RefreshTimelineItems env w1).window
      some { w2 with m_refreshTimelineItemsThread :=
              w2.m_refreshTimelineItemsThread.map CPVRRefreshTimelineItemsThread.passDone }

/-- Second locked block of `GetDirectory`: a pending timeline replaces the caller's items and
is dropped. -/
def takeNewTimeline (items : List Item) (w : CGUIWindowPVRGuideBase Item Group) :
    List Item × CGUIWindowPVRGuideBase Item Group :=
  match w.m_newTimeline with
  | some newTimeline => (newTimeline, { w with m_newTimeline := none })
  | none => (items, w)

/-- The function `GetDirectory`; `items` is the caller's item list, which `Assign` replaces
by a copy of the pending timeline. The directory name is not read, and the removal of the
disc cache acts outside the window. -/
def GetDirectory [DecidableEq Group] (channelGroup : Option Group)
    (worker : Option (RefreshEnv Item Group)) (items : List Item)
    (w : CGUIWindowPVRGuideBase Item Group) : Option (GetDirectoryResult Item Group) :=
  match detectGroupChange channelGroup w with
  | none => none
  | some (bRefreshTimelineItems, w1) =>
    let afterRefresh := if bRefreshTimelineItems then callDoRefresh worker w1 else some w1
    match afterRefresh with
    | none => none
    | some w2 =>
      let taken := takeNewTimeline items w2
      some { ret := true, items := taken.1, window := taken.2, doRefresh := bRefreshTimelineItems }

end CGUIWindowPVRGuideBase

/-! ## The worker loop -/

/-- The constant `BOOSTED_SLEEPS_THRESHOLD` of `Process`. -/
def BOOSTED_SLEEPS_THRESHOLD : Int := 4

/-- What one pass of the loop of `Process` reads from outside: what the other threads did to
the window since the last pass, the three reads of the stop flag `m_bStop` (loop condition,
after `RefreshTimelineItems`, before the sleep), what `RefreshTimelineItems` reads, and
`CurrentDirectory().Size()`. -/
structure IterationInput (Item Group : Type) where
  foreground : CGUIWindowPVRGuideBase Item Group → CGUIWindowPVRGuideBase Item Group
  stopAtLoopHead : Bool
  stopAfterRefresh : Bool
  stopBeforeSleep : Bool
  env : RefreshEnv Item Group
  itemsCount : Int

/-- The locals of `Process` and the window the worker acts on. -/
structure ProcessState (Item Group : Type) where
  iLastEpgItemsCount : Int
  iUpdatesWithoutChange : Int
  window : CGUIWindowPVRGuideBase Item Group
  deriving DecidableEq, Repr

/-- What one pass of the loop does towards the outside: whether it left the loop, whether it
sent `GUI_MSG_REFRESH_LIST`, and the timeout (ms) of its wait on `m_ready`, if it waited. -/
structure IterationOutcome where
  exited : Bool
  notified : Bool
  sleep : Option Nat
  deriving DecidableEq, Repr

namespace CPVRRefreshTimelineItemsThread

/-- Writes one of the worker's events in the thread object held by the window. -/
def setEvents (f : CPVRRefreshTimelineItemsThread → CPVRRefreshTimelineItemsThread)
    (w : CGUIWindowPVRGuideBase Item Group) : CGUIWindowPVRGuideBase Item Group :=
  { w with m_refreshTimelineItemsThread := w.m_refreshTimelineItemsThread.map f }

/-- The locals of `Process` at its start. -/
def processInit (w : CGUIWindowPVRGuideBase Item Group) : ProcessState Item Group :=
  { iLastEpgItemsCount := 0, iUpdatesWithoutChange := 0, window := w }

/-- One pass of the `while` loop of `Process`. -/
def ProcessIteration (i : IterationInput Item Group) (s : ProcessState Item Group) :
    ProcessState Item Group × IterationOutcome :=
  let w0 := i.foreground s.window
  if i.stopAtLoopHead then
    ({ s with window := w0 }, { exited := true, notified := false, sleep := none })
  else
    let w1 := setEvents (fun t => { t with m_done := false }) w0
    let r := CGUIWindowPVRGuideBase.RefreshTimelineItems i.env w1
    let notified := r.ret && !i.stopAfterRefresh
    if i.stopBeforeSleep then
      ({ s with window := r.window }, { exited := true, notified := notified, sleep := none })
    else
      let w2 := setEvents (fun t => { t with m_done := true }) r.window
      let w3 := setEvents (fun t => { t with m_ready := false }) w2
      if s.iUpdatesWithoutChange < BOOSTED_SLEEPS_THRESHOLD then
        let iCurrentEpgItemsCount := i.itemsCount
        let iUpdatesWithoutChange :=
          if iCurrentEpgItemsCount = s.iLastEpgItemsCount then s.iUpdatesWithoutChange + 1 else 0
        ({ iLastEpgItemsCount := iCurrentEpgItemsCount
           iUpdatesWithoutChange := iUpdatesWithoutChange
           window := w3 },
         { exited := false, notified := notified, sleep := some 1000 })
      else
        ({ s with window := w3 }, { exited := false, notified := notified, sleep := some 5000 })

/-- The `while` loop of `Process` over the passes for which inputs are given: the state
reached and the outcome of every pass made. -/
def ProcessLoop : List (IterationInput Item Group) → ProcessState Item Group →
    ProcessState Item Group × List IterationOutcome
  | [], s => (s, [])
  | i :: rest, s =>
    let step := ProcessIteration i s
    if step.2.exited then (step.1, [step.2])
    else
      let r := ProcessLoop rest step.1
      (r.1, step.2 :: r.2)

/-- The function `Process` over the passes for which inputs are given; once the loop is left,
`m_ready.Reset()` and `m_done.Set()`. -/
def Process (inputs : List (IterationInput Item Group)) (w : CGUIWindowPVRGuideBase Item Group) :
    ProcessState Item Group × List IterationOutcome :=
  let r := ProcessLoop inputs (processInit w)
  if r.2.any (fun o => o.exited) then
    ({ r.1 with window := setEvents (fun t => { t with m_ready := false, m_done := true }) r.1.window },
     r.2)
  else r

end CPVRRefreshTimelineItemsThread

/-! ## The worker loop, step by step

The same loop, with one place for every access of the worker to what it shares with other
threads (the stop flag, the two events, the window, the item list, the message sink), so that
an operation of another thread can fall between any two of them. The stop flag is read from
the thread object. -/

/-- The places of `Process`, each named after the statement the worker executes next:
the loop condition `while (!m_bStop)`; `m_done.Reset()`; the first locked block of
`RefreshTimelineItems`; its unlocked part (grid control, group, fetch, dates,
`SetTimelineItems`); its second locked block, holding the fetched timeline and the group; the
test `&& !m_bStop`; `SendGUIMessage`; `if (m_bStop) break`; `m_done.Set()`; the threshold test
with the read of the item count; the wait on `m_ready`; `m_ready.Reset()` in the loop;
`m_ready.Reset()` and `m_done.Set()` after the loop; the return. -/
inductive ProcessPoint (Item Group : Type) where
  | loopCondition
  | resetDone
  | claim
  | fetch
  | publish (timeline : List Item) (group : Group)
  | stopTest
  | send
  | breakTest
  | setDone
  | readCount
  | wait (ms : Nat)
  | resetReady
  | epilogueReady
  | epilogueDone
  | returned
  deriving DecidableEq, Repr

/-- The worker thread inside `Process`: where it stands, its locals and the window. -/
structure ProcessRun (Item Group : Type) where
  point : ProcessPoint Item Group
  state : ProcessState Item Group
  deriving DecidableEq, Repr

/-- What one step of the worker does towards the outside: nothing, the entry into a pass of
the loop, the return of `RefreshTimelineItems` (with its result), the sending of
`GUI_MSG_REFRESH_LIST`, or a wait on `m_ready` with a timeout in ms. -/
inductive ProcessEvent where
  | silent
  | passEntered
  | refreshReturned (ret : Bool)
  | messageSent
  | waited (ms : Nat)
  deriving DecidableEq, Repr

namespace CPVRRefreshTimelineItemsThread

/-- The worker's read of its stop flag `m_bStop`, in the thread object held by the window. -/
def stopRequested (w : CGUIWindowPVRGuideBase Item Group) : Bool :=
  match w.m_refreshTimelineItemsThread with
  | some t => t.m_bStop
  | none => true

/-- One step of the worker in `Process`, from one place to the next. -/
def ProcessStep (env : RefreshEnv Item Group) (itemsCount : Int) (r : ProcessRun Item Group) :
    ProcessRun Item Group × ProcessEvent :=
  let s := r.state
  match r.point with
  | ProcessPoint.loopCondition =>
    if stopRequested s.window then
      ({ r with point := ProcessPoint.epilogueReady }, ProcessEvent.silent)
    else ({ r with point := ProcessPoint.resetDone }, ProcessEvent.passEntered)
  | ProcessPoint.resetDone =>
    let w1 := setEvents (fun t => { t with m_done := false }) s.window
    ({ point := ProcessPoint.claim, state := { s with window := w1 } }, ProcessEvent.silent)
  | ProcessPoint.claim =>
    let bRefreshTimelineItems := s.window.m_bRefreshTimelineItems
    let w1 := { s.window with m_bRefreshTimelineItems := false }
    if bRefreshTimelineItems then
      ({ point := ProcessPoint.fetch, state := { s with window := w1 } }, ProcessEvent.silent)
    else
      ({ point := ProcessPoint.breakTest, state := { s with window := w1 } },
       ProcessEvent.refreshReturned false)
  | ProcessPoint.fetch =>
    if env.gridControl then
      match env.channelGroup with
      | none => ({ r with point := ProcessPoint.breakTest }, ProcessEvent.refreshReturned false)
      | some group => ({ r with point := ProcessPoint.publish env.epgAll group }, ProcessEvent.silent)
    else ({ r with point := ProcessPoint.breakTest }, ProcessEvent.refreshReturned false)
  | ProcessPoint.publish timeline group =>
    let w1 := { s.window with m_newTimeline := some timeline, m_cachedChannelGroup := some group }
    ({ point := ProcessPoint.stopTest, state := { s with window := w1 } },
     ProcessEvent.refreshReturned true)
  | ProcessPoint.stopTest =>
    if !stopRequested s.window then ({ r with point := ProcessPoint.send }, ProcessEvent.silent)
    else ({ r with point := ProcessPoint.breakTest }, ProcessEvent.silent)
  | ProcessPoint.send => ({ r with point := ProcessPoint.breakTest }, ProcessEvent.messageSent)
  | ProcessPoint.breakTest =>
    if stopRequested s.window then
      ({ r with point := ProcessPoint.epilogueReady }, ProcessEvent.silent)
    else ({ r with point := ProcessPoint.setDone }, ProcessEvent.silent)
  | ProcessPoint.setDone =>
    let w2 := setEvents (fun t => { t with m_done := true }) s.window
    ({ point := ProcessPoint.readCount, state := { s with window := w2 } }, ProcessEvent.silent)
  | ProcessPoint.readCount =>
    if s.iUpdatesWithoutChange < BOOSTED_SLEEPS_THRESHOLD then
      let iCurrentEpgItemsCount := itemsCount
      let iUpdatesWithoutChange :=
        if iCurrentEpgItemsCount = s.iLastEpgItemsCount then s.iUpdatesWithoutChange + 1 else 0
      ({ point := ProcessPoint.wait 1000
         state := { s with iLastEpgItemsCount := iCurrentEpgItemsCount
                           iUpdatesWithoutChange := iUpdatesWithoutChange } },
       ProcessEvent.silent)
    else ({ r with point := ProcessPoint.wait 5000 }, ProcessEvent.silent)
  | ProcessPoint.wait ms => ({ r with point := ProcessPoint.resetReady }, ProcessEvent.waited ms)
  | ProcessPoint.resetReady =>
    let w3 := setEvents (fun t => { t with m_ready := false }) s.window
    ({ point := ProcessPoint.loopCondition, state := { s with window := w3 } },
     ProcessEvent.silent)
  | ProcessPoint.epilogueReady =>
    let w4 := setEvents (fun t => { t with m_ready := false }) s.window
    ({ point := ProcessPoint.epilogueDone, state := { s with window := w4 } },
     ProcessEvent.silent)
  | ProcessPoint.epilogueDone =>
    let w5 := setEvents (fun t => { t with m_done := true }) s.window
    ({ point := ProcessPoint.returned, state := { s with window := w5 } }, ProcessEvent.silent)
  | ProcessPoint.returned => (r, ProcessEvent.silent)

/-- Steps of the worker, one for each pair of what `RefreshTimelineItems` would read and the
item count at that time, with no other thread acting in between. -/
def ProcessSteps : List (RefreshEnv Item Group × Int) → ProcessRun Item Group →
    ProcessRun Item Group × List ProcessEvent
  | [], r => (r, [])
  | read :: rest, r =>
    let step := ProcessStep read.1 read.2 r
    let tl := ProcessSteps rest step.1
    (tl.1, step.2 :: tl.2)

/-- An operation of another thread on the window while the worker stands where it is. -/
def onWindow (f : CGUIWindowPVRGuideBase Item Group → CGUIWindowPVRGuideBase Item Group)
    (r : ProcessRun Item Group) : ProcessRun Item Group :=
  { r with state := { r.state with window := f r.state.window } }

/-- With the stop flag raised, a bound on the number of steps the worker takes from a place
to the return of `Process`. -/
def stepsToReturn : ProcessPoint Item Group → Nat
  | ProcessPoint.returned => 0
  | ProcessPoint.epilogueDone => 1
  | ProcessPoint.epilogueReady => 2
  | ProcessPoint.loopCondition => 3
  | ProcessPoint.breakTest => 3
  | ProcessPoint.send => 4
  | ProcessPoint.stopTest => 4
  | ProcessPoint.resetReady => 4
  | ProcessPoint.publish _ _ => 5
  | ProcessPoint.wait _ => 5
  | ProcessPoint.fetch => 6
  | ProcessPoint.readCount => 6
  | ProcessPoint.claim => 7
  | ProcessPoint.setDone => 7
  | ProcessPoint.resetDone => 8

/-- The places of a refresh cycle in flight at which the worker does not look at the stop
flag: the two locked blocks and the unlocked part of `RefreshTimelineItems`, and the sending
of the message once the test `&& !m_bStop` has been passed. -/
def cycleInFlight : ProcessPoint Item Group → Bool
  | ProcessPoint.claim => true
  | ProcessPoint.fetch => true
  | ProcessPoint.publish _ _ => true
  | ProcessPoint.send => true
  | _ => false

/-- Whether the worker has returned from `Process`. -/
def hasReturned : ProcessPoint Item Group → Bool
  | ProcessPoint.returned => true
  | _ => false

/-- Modelled from the spec: `CThread::StopThread(bWait)` is defined outside the file. The spec
names its two effects, "sets a stop flag" and "joins the loop thread"; the argument says
whether the caller waits for the thread: the comment in the destructor of the thread object
calls `StopThread(true)` the synchronous stop. The flag is raised; with `bWait` the caller then
waits while the worker takes its steps (`reads` is what they read) and the call returns once
`Process` has returned; the result is `none` if it has not within the steps given. -/
def StopThread (bWait : Bool) (reads : List (RefreshEnv Item Group × Int))
    (r : ProcessRun Item Group) : Option (ProcessRun Item Group) :=
  let w1 := setEvents (fun t => { t with m_bStop := true }) r.state.window
  let r1 : ProcessRun Item Group := { r with state := { r.state with window := w1 } }
  if bWait then
    let r2 := (ProcessSteps reads r1).1
    if hasReturned r2.point then some r2 else none
  else some r1

/-- The function `Stop`, called while the worker stands at `r.point`: `StopThread(false)`,
then `m_ready.Set()`. -/
def stopCall (reads : List (RefreshEnv Item Group × Int)) (r : ProcessRun Item Group) :
    Option (ProcessRun Item Group) :=
  (StopThread false reads r).map fun r1 =>
    let w2 := setEvents (fun t => { t with m_ready := true }) r1.state.window
    { r1 with state := { r1.state with window := w2 } }

end CPVRRefreshTimelineItemsThread

/-! ## The display window as the specification words it -/

/-- The display window in the words of the specification: with `F'` the first date `F` if it
is valid and the current time `N` otherwise, the start is the later of `F'` and `N` minus `r`
days, and the end is the last date `L` if it is valid and not before `F'`, and `F'` otherwise. -/
def specDisplayWindow (F L : CDateTime) (N r : Int) : CDateTime × CDateTime :=
  let F' : CDateTime := if F.m_valid then F else { m_valid := true, m_time := N }
  ({ m_valid := true, m_time := max F'.m_time (N - 86400 * r) },
   if L.m_valid = true ∧ F'.m_time ≤ L.m_time then L else F')

/-! ## Sample inputs -/

/-- A framework whose calls return false and leave the window as it is. -/
def sampleFramework : Framework Nat Nat := fun _ w => (false, w)

/-- A window just constructed, showing three entries. -/
def sampleWindow : CGUIWindowPVRGuideBase Nat Nat := CGUIWindowPVRGuideBase.init (some [1, 2, 3])

/-- Group 1 with two entries, first date unknown, last date 5000, read at time 1000 with one
day of retention. -/
def sampleEnv : RefreshEnv Nat Nat :=
  { gridControl := true, channelGroup := some 1, epgAll := [10, 11]
    firstEPGDate := { m_valid := false, m_time := 0 }
    lastEPGDate := { m_valid := true, m_time := 5000 }
    currentTime := 1000, iPastDays := 1 }

/-- Group 2 with three entries, first date thirty days before the time of reading, 3000000,
last date 4000000, seven days of retention. -/
def sampleEnv2 : RefreshEnv Nat Nat :=
  { gridControl := true, channelGroup := some 2, epgAll := [20, 21, 22]
    firstEPGDate := { m_valid := true, m_time := 3000000 - 30 * 86400 }
    lastEPGDate := { m_valid := true, m_time := 4000000 }
    currentTime := 3000000, iPastDays := 7 }

/-- Three refresh-triggering messages. -/
def sampleMessages : List ObservableMessage :=
  [ObservableMessage.ObservableMessageEpg, ObservableMessage.ObservableMessageChannelGroup,
    ObservableMessage.ObservableMessageEpgContainer]

/-- What `RefreshTimelineItems` reads when the grid control is there and the channel group
is not. -/
def sampleEnvNoGroup : RefreshEnv Nat Nat := { sampleEnv with channelGroup := none }

/-- Inputs of passes of the worker loop in which nothing else touches the window, no stop is
requested, `RefreshTimelineItems` reads `sampleEnv`, and the item counts are the given ones. -/
def sampleInputs (counts : List Int) : List (IterationInput Nat Nat) :=
  counts.map fun c =>
    { foreground := fun w => w, stopAtLoopHead := false, stopAfterRefresh := false,
      stopBeforeSleep := false, env := sampleEnv, itemsCount := c }

/-- Group 3 whose schedule is stale: first date thirty days and last date twenty days before
the time of reading, 3000000, with seven days of retention. -/
def sampleEnvStale : RefreshEnv Nat Nat :=
  { gridControl := true, channelGroup := some 3, epgAll := [30]
    firstEPGDate := { m_valid := true, m_time := 3000000 - 30 * 86400 }
    lastEPGDate := { m_valid := true, m_time := 3000000 - 20 * 86400 }
    currentTime := 3000000, iPastDays := 7 }

/-- The worker inside a pass of its loop, past the loop condition and before its call of
`RefreshTimelineItems`, on a window with a refresh requested and the worker's thread object in
place. -/
def sampleRun : ProcessRun Nat Nat :=
  { point := ProcessPoint.resetDone
    state := CPVRRefreshTimelineItemsThread.processInit
      { sampleWindow with m_bRefreshTimelineItems := true,
                          m_refreshTimelineItemsThread :=
                            some CPVRRefreshTimelineItemsThread.create } }

/-- In a run of passes that starts in the loop state `s` and whose passes all observe the
item count `c`, the number of the pass that is the 4th consecutive one to find the count
unchanged: if `c` is the count recorded in `s`, the unchanged passes already counted by `s`
count too; if not, the first pass of the run finds the count changed and four more follow. At
the start of `Process` (recorded count 0, counter 0) it is pass 4 for `c = 0` and pass 5
otherwise. -/
def fourthUnchangedPass (s : ProcessState Item Group) (c : Int) : Nat :=
  if c = s.iLastEpgItemsCount then (BOOSTED_SLEEPS_THRESHOLD - s.iUpdatesWithoutChange).toNat
  else (BOOSTED_SLEEPS_THRESHOLD + 1).toNat

/-! ## Helper lemmas -/

open CGUIWindowPVRGuideBase

/-- A refresh-triggering `Notify` sets the flag. -/
lemma Notify_flag_of_triggers (fw : Framework Item Group) (msg : ObservableMessage)
    (w : CGUIWindowPVRGuideBase Item Group) (h : triggersRefresh msg = true) :
    (Notify fw msg w).m_bRefreshTimelineItems = true := by
  simp [Notify, h]

/-- After a non-empty sequence of refresh-triggering notifications the flag is set. -/
lemma notifyAll_flag (fw : Framework Item Group) (msgs : List ObservableMessage)
    (w : CGUIWindowPVRGuideBase Item Group) (hN : 1 ≤ msgs.length)
    (hmsgs : ∀ m ∈ msgs, triggersRefresh m = true) :
    (notifyAll fw msgs w).m_bRefreshTimelineItems = true := by
  induction msgs using List.reverseRecOn with
  | nil => simp at hN
  | append_singleton init last _ =>
    have hlast : triggersRefresh last = true := hmsgs last (by simp)
    simp only [notifyAll, List.foldl_append, List.foldl_cons, List.foldl_nil]
    exact Notify_flag_of_triggers fw last _ hlast

/-- The flag is false after every call of `RefreshTimelineItems`. -/
lemma RefreshTimelineItems_flag (env : RefreshEnv Item Group)
    (w : CGUIWindowPVRGuideBase Item Group) :
    (RefreshTimelineItems env w).window.m_bRefreshTimelineItems = false := by
  unfold RefreshTimelineItems
  cases w.m_bRefreshTimelineItems <;> cases env.gridControl <;> cases env.channelGroup <;> simp

/-- With the flag set, the grid control and the group available, a call performs the cycle. -/
lemma RefreshTimelineItems_cycle (env : RefreshEnv Item Group)
    (w : CGUIWindowPVRGuideBase Item Group) (g : Group)
    (hflag : w.m_bRefreshTimelineItems = true) (hgrid : env.gridControl = true)
    (hgroup : env.channelGroup = some g) :
    RefreshTimelineItems env w =
      { ret := true
        window := { w with m_bRefreshTimelineItems := false, m_newTimeline := some env.epgAll,
                           m_cachedChannelGroup := some g }
        setTimelineItems := some (env.epgAll,
          (displayWindow env.firstEPGDate env.lastEPGDate env.currentTime env.iPastDays).1,
          (displayWindow env.firstEPGDate env.lastEPGDate env.currentTime env.iPastDays).2) } := by
  simp [RefreshTimelineItems, hflag, hgrid, hgroup]

/-- With the flag clear a call does nothing. -/
lemma RefreshTimelineItems_idle (env : RefreshEnv Item Group)
    (w : CGUIWindowPVRGuideBase Item Group) (hflag : w.m_bRefreshTimelineItems = false) :
    RefreshTimelineItems env w = { ret := false, window := w, setTimelineItems := none } := by
  cases w
  simp_all [RefreshTimelineItems]

/-- A call that returns true found the flag set, the grid control and a group. -/
lemma RefreshTimelineItems_ret (env : RefreshEnv Item Group)
    (w : CGUIWindowPVRGuideBase Item Group) (h : (RefreshTimelineItems env w).ret = true) :
    w.m_bRefreshTimelineItems = true ∧ env.gridControl = true ∧ ∃ g, env.channelGroup = some g := by
  unfold RefreshTimelineItems at h
  cases hf : w.m_bRefreshTimelineItems <;> cases hg : env.gridControl <;>
    cases hc : env.channelGroup <;> simp_all

/-- The function `RefreshTimelineItems` does not touch the thread object. -/
lemma RefreshTimelineItems_thread (env : RefreshEnv Item Group)
    (w : CGUIWindowPVRGuideBase Item Group) :
    (RefreshTimelineItems env w).window.m_refreshTimelineItemsThread
      = w.m_refreshTimelineItemsThread := by
  unfold RefreshTimelineItems
  cases w.m_bRefreshTimelineItems <;> cases env.gridControl <;> cases env.channelGroup <;> simp

/-! ## Refresh requests, publishing and taking -/

/-- C1. Refresh requests coalesce: after `N ≥ 1` calls of `Notify` with refresh-triggering
messages, from any window state, a call of `RefreshTimelineItems` that finds the grid control
and the channel group performs one refresh cycle (it returns true and hands a timeline to the
grid) and leaves the flag false; a second call with no request in between, whatever it reads,
performs no cycle: it returns false, hands nothing to the grid and changes nothing. -/
theorem C1_refresh_requests_coalesce (fw : Framework Item Group) (msgs : List ObservableMessage)
    (w : CGUIWindowPVRGuideBase Item Group) (env1 env2 : RefreshEnv Item Group) (g : Group)
    (hN : 1 ≤ msgs.length) (hmsgs : ∀ m ∈ msgs, triggersRefresh m = true)
    (hgrid : env1.gridControl = true) (hgroup : env1.channelGroup = some g) :
    (RefreshTimelineItems env1 (notifyAll fw msgs w)).ret = true ∧
    (RefreshTimelineItems env1 (notifyAll fw msgs w)).setTimelineItems.isSome = true ∧
    (RefreshTimelineItems env1 (notifyAll fw msgs w)).window.m_bRefreshTimelineItems = false ∧
    (RefreshTimelineItems env2 (RefreshTimelineItems env1 (notifyAll fw msgs w)).window).ret
      = false ∧
    (RefreshTimelineItems env2
      (RefreshTimelineItems env1 (notifyAll fw msgs w)).window).setTimelineItems = none ∧
    (RefreshTimelineItems env2 (RefreshTimelineItems env1 (notifyAll fw msgs w)).window).window
      = (RefreshTimelineItems env1 (notifyAll fw msgs w)).window := by
  have hflag := notifyAll_flag fw msgs w hN hmsgs
  have h1 := RefreshTimelineItems_cycle env1 _ g hflag hgrid hgroup
  have h2 := RefreshTimelineItems_idle env2 _ (RefreshTimelineItems_flag env1 (notifyAll fw msgs w))
  rw [h2]
  refine ⟨?_, ?_, RefreshTimelineItems_flag env1 _, rfl, rfl, rfl⟩
  · rw [h1]
  · rw [h1]; rfl

/-- Witness of C1: three notifications on a fresh window, then two calls. -/
theorem C1_refresh_requests_coalesce_witness :
    1 ≤ sampleMessages.length ∧
    (RefreshTimelineItems sampleEnv (notifyAll sampleFramework sampleMessages sampleWindow)).ret
      = true ∧
    (RefreshTimelineItems sampleEnv2
      (RefreshTimelineItems sampleEnv
        (notifyAll sampleFramework sampleMessages sampleWindow)).window).ret = false :=
  have h := C1_refresh_requests_coalesce sampleFramework sampleMessages sampleWindow
    sampleEnv sampleEnv2 1 (by decide) (by decide) rfl rfl
  ⟨by decide, h.1, h.2.2.2.1⟩

/-- C2. Publish overwrites: whatever the window held before (a pending timeline or none), a
call of `RefreshTimelineItems` that returns true leaves `m_newTimeline` equal to the timeline
it fetched and `m_cachedChannelGroup` equal to the group it fetched from; so after two
successful cycles with only notifications in between, the pending timeline is the second
one and the cached group is the second group. -/
theorem C2_publish_overwrites (fw : Framework Item Group) (msgs : List ObservableMessage)
    (w : CGUIWindowPVRGuideBase Item Group) (env1 env2 : RefreshEnv Item Group)
    (h1 : (RefreshTimelineItems env1 w).ret = true)
    (h2 : (RefreshTimelineItems env2
            (notifyAll fw msgs (RefreshTimelineItems env1 w).window)).ret = true) :
    ((RefreshTimelineItems env1 w).window.m_newTimeline = some env1.epgAll ∧
      (RefreshTimelineItems env1 w).window.m_cachedChannelGroup = env1.channelGroup) ∧
    ((RefreshTimelineItems env2
        (notifyAll fw msgs (RefreshTimelineItems env1 w).window)).window.m_newTimeline
      = some env2.epgAll ∧
     (RefreshTimelineItems env2
        (notifyAll fw msgs (RefreshTimelineItems env1 w).window)).window.m_cachedChannelGroup
      = env2.channelGroup) := by
  have key : ∀ (env : RefreshEnv Item Group) (v : CGUIWindowPVRGuideBase Item Group),
      (RefreshTimelineItems env v).ret = true →
      (RefreshTimelineItems env v).window.m_newTimeline = some env.epgAll ∧
      (RefreshTimelineItems env v).window.m_cachedChannelGroup = env.channelGroup := by
    intro env v h
    obtain ⟨hf, hg, g, hc⟩ := RefreshTimelineItems_ret env v h
    rw [RefreshTimelineItems_cycle env v g hf hg hc]
    exact ⟨rfl, hc.symm⟩
  exact ⟨key env1 w h1, key env2 _ h2⟩

/-- Witness of C2: a first cycle on a window with a pending timeline, one notification, a
second cycle for another group. -/
theorem C2_publish_overwrites_witness :
    (RefreshTimelineItems sampleEnv2
      (notifyAll sampleFramework sampleMessages
        (RefreshTimelineItems sampleEnv
          { sampleWindow with m_bRefreshTimelineItems := true,
                              m_newTimeline := some [7] }).window)).window.m_newTimeline
      = some [20, 21, 22] :=
  (C2_publish_overwrites sampleFramework sampleMessages
    { sampleWindow with m_bRefreshTimelineItems := true, m_newTimeline := some [7] }
    sampleEnv sampleEnv2 (by decide) (by decide)).2.1

/-- C3. Taking the pending snapshot: when the group change test of `GetDirectory` finds no
change, `GetDirectory` returns true without calling `DoRefresh` and leaves `m_newTimeline`
empty; the caller's item list becomes the pending timeline if there was one and is unchanged
otherwise; everything else in the window is as before. A second call right after the first
returns the same and changes neither the item list nor the window. -/
theorem C3_take_pending_snapshot [DecidableEq Group] (channelGroup : Option Group)
    (worker worker2 : Option (RefreshEnv Item Group)) (items : List Item)
    (w : CGUIWindowPVRGuideBase Item Group)
    (hno : detectGroupChange channelGroup w = some (false, w)) :
    ∃ r : GetDirectoryResult Item Group,
      GetDirectory channelGroup worker items w = some r ∧
      r.ret = true ∧ r.doRefresh = false ∧
      r.window = { w with m_newTimeline := none } ∧
      r.items = w.m_newTimeline.getD items ∧
      GetDirectory channelGroup worker2 r.items r.window = some r := by
  have hno2 : detectGroupChange channelGroup { w with m_newTimeline := none }
      = some (false, { w with m_newTimeline := none }) := by
    unfold detectGroupChange at hno ⊢
    cases hc : w.m_cachedChannelGroup with
    | none => simp
    | some cached =>
      rw [hc] at hno
      cases channelGroup with
      | none => simp at hno
      | some current =>
        by_cases hne : cached = current
        · simp [hne]
        · simp [hne] at hno
  cases hnt : w.m_newTimeline with
  | none =>
    have hw : { w with m_newTimeline := none } = w := by cases w; simp_all
    refine ⟨{ ret := true, items := items, window := w, doRefresh := false }, ?_, rfl, rfl,
      hw.symm, rfl, ?_⟩ <;> simp [GetDirectory, hno, takeNewTimeline, hnt]
  | some newTimeline =>
    refine ⟨{ ret := true, items := newTimeline, window := { w with m_newTimeline := none },
              doRefresh := false }, ?_, rfl, rfl, rfl, rfl, ?_⟩
    · simp [GetDirectory, hno, takeNewTimeline, hnt]
    · simp [GetDirectory, hno2, takeNewTimeline]

/-- Witness of C3: group 1 cached and current, a timeline pending. -/
theorem C3_take_pending_snapshot_witness :
    ∃ r : GetDirectoryResult Nat Nat,
      GetDirectory (some 1) none [1, 2, 3]
        { sampleWindow with m_cachedChannelGroup := some 1, m_newTimeline := some [10, 11] }
        = some r ∧
      r.ret = true ∧ r.doRefresh = false ∧
      r.window = { sampleWindow with m_cachedChannelGroup := some 1, m_newTimeline := none } ∧
      r.items = [10, 11] ∧
      GetDirectory (some 1) (some sampleEnv) r.items r.window = some r :=
  C3_take_pending_snapshot (some 1) none (some sampleEnv) [1, 2, 3]
    { sampleWindow with m_cachedChannelGroup := some 1, m_newTimeline := some [10, 11] }
    (by decide)

/-! ## Change detection -/

/-- C4. Change detection: with cached group `cached` (set or unset), current group `B` and a
worker thread object `t` in place, `GetDirectory` detects a group change exactly when the
cached group is set and differs from `B` by value. On detection its first block sets the flag
and `DoRefresh` is called on the thread object. If the worker does not run while the caller
waits, the window is on return as before except that the flag is set, `m_ready` is set and
`m_done` is reset (and a pending timeline has gone to the caller). If the woken worker completes
a pass meanwhile, its `RefreshTimelineItems` finds the flag set, `m_ready` set and `m_done`
reset, and on return the flag is clear, `m_ready` is reset, `m_done` is set, and what that call
published has gone to the caller. Without detection the first block leaves the window as it is,
`DoRefresh` is not called, and flag and thread object are on return as they were. -/
theorem C4_change_detection [DecidableEq Group] (B : Group)
    (worker : Option (RefreshEnv Item Group)) (items : List Item)
    (w : CGUIWindowPVRGuideBase Item Group) (t : CPVRRefreshTimelineItemsThread)
    (ht : w.m_refreshTimelineItemsThread = some t) :
    ∃ r : GetDirectoryResult Item Group,
      GetDirectory (some B) worker items w = some r ∧
      (r.doRefresh = true ↔ ∃ A, w.m_cachedChannelGroup = some A ∧ B ≠ A) ∧
      (r.doRefresh = true →
        detectGroupChange (some B) w = some (true, { w with m_bRefreshTimelineItems := true }) ∧
        (worker = none →
          r = { ret := true, items := w.m_newTimeline.getD items, doRefresh := true
                window := { w with m_bRefreshTimelineItems := true, m_newTimeline := none,
                                   m_refreshTimelineItemsThread := some ⟨t.m_bStop, true, false⟩ } }) ∧
        (∀ env, worker = some env →
          r.window.m_bRefreshTimelineItems = false ∧
          r = { ret := true, doRefresh := true
                items := (RefreshTimelineItems env
                  { w with m_bRefreshTimelineItems := true,
                           m_refreshTimelineItemsThread := some ⟨t.m_bStop, true, false⟩
                  }).window.m_newTimeline.getD items
                window := { (RefreshTimelineItems env
                  { w with m_bRefreshTimelineItems := true,
                           m_refreshTimelineItemsThread := some ⟨t.m_bStop, true, false⟩
                  }).window with
                    m_newTimeline := none,
                    m_refreshTimelineItemsThread := some ⟨t.m_bStop, false, true⟩ } })) ∧
      (r.doRefresh = false →
        detectGroupChange (some B) w = some (false, w) ∧
        r.window.m_bRefreshTimelineItems = w.m_bRefreshTimelineItems ∧
        r.window.m_refreshTimelineItemsThread = w.m_refreshTimelineItemsThread ∧
        r = { ret := true, items := w.m_newTimeline.getD items, doRefresh := false
              window := { w with m_newTimeline := none } }) := by
  have htake : ∀ (v : CGUIWindowPVRGuideBase Item Group),
      takeNewTimeline items v = (v.m_newTimeline.getD items, { v with m_newTimeline := none }) := by
    intro v
    unfold takeNewTimeline
    cases hv : v.m_newTimeline with
    | none => cases v; simp_all
    | some nt => simp
  have hquiet : detectGroupChange (some B) w = some (false, w) →
      ∃ r : GetDirectoryResult Item Group,
        GetDirectory (some B) worker items w = some r ∧ r.doRefresh = false ∧
        r = { ret := true, items := w.m_newTimeline.getD items, doRefresh := false
              window := { w with m_newTimeline := none } } := by
    intro hd
    refine ⟨_, ?_, rfl, rfl⟩
    simp only [GetDirectory, hd, Bool.false_eq_true, if_false, htake]
  have hfalse : ∀ r : GetDirectoryResult Item Group,
      r = { ret := true, items := w.m_newTimeline.getD items, doRefresh := false
            window := { w with m_newTimeline := none } } →
      r.window.m_bRefreshTimelineItems = w.m_bRefreshTimelineItems ∧
      r.window.m_refreshTimelineItemsThread = w.m_refreshTimelineItemsThread ∧
      r = { ret := true, items := w.m_newTimeline.getD items, doRefresh := false
            window := { w with m_newTimeline := none } } := by
    intro r hr
    exact ⟨by rw [hr], by rw [hr], hr⟩
  by_cases hdet : ∃ A, w.m_cachedChannelGroup = some A ∧ B ≠ A
  · obtain ⟨A, hA, hBA⟩ := hdet
    have hAB : ¬ A = B := fun h => hBA h.symm
    have hd : detectGroupChange (some B) w
        = some (true, { w with m_bRefreshTimelineItems := true }) := by
      simp [detectGroupChange, hA, hAB]
    cases worker with
    | none =>
      refine ⟨_, by simp only [GetDirectory, hd, callDoRefresh, ht, if_true, htake]; rfl,
        ?_, ?_, ?_⟩
      · simp only [true_iff]; exact ⟨A, hA, hBA⟩
      · intro _
        refine ⟨hd, fun _ => ?_, fun env h => by simp at h⟩
        simp [CPVRRefreshTimelineItemsThread.DoRefresh]
      · simp
    | some env =>
      refine ⟨_, by simp only [GetDirectory, hd, callDoRefresh, ht, if_true, htake]; rfl,
        ?_, ?_, ?_⟩
      · simp only [true_iff]; exact ⟨A, hA, hBA⟩
      · intro _
        refine ⟨hd, fun h => by simp at h, fun env2 h => ?_⟩
        have henv : env = env2 := by simpa using h
        subst henv
        refine ⟨?_, ?_⟩
        · simp [RefreshTimelineItems_flag]
        · simp [CPVRRefreshTimelineItemsThread.DoRefresh, RefreshTimelineItems_thread,
            CPVRRefreshTimelineItemsThread.passDone]
      · simp
  · have hd : detectGroupChange (some B) w = some (false, w) := by
      unfold detectGroupChange
      cases hc : w.m_cachedChannelGroup with
      | none => rfl
      | some A =>
        by_cases hAB : A = B
        · simp [hAB]
        · exact absurd ⟨A, hc, fun h => hAB h.symm⟩ hdet
    obtain ⟨r, hget, hdo, hr⟩ := hquiet hd
    refine ⟨r, hget, ?_, ?_, ?_⟩
    · simp only [hdo, Bool.false_eq_true, false_iff]; exact hdet
    · simp [hdo]
    · intro _
      exact ⟨hd, hfalse r hr⟩

/-- Witness of C4: group 1 cached, group 2 current, the thread object with `m_ready` reset and
`m_done` set, the worker not running meanwhile: on return the flag is set, `m_ready` is set
and `m_done` is reset. -/
theorem C4_change_detection_witness :
    GetDirectory (some 2) none [1, 2, 3]
      { sampleWindow with m_cachedChannelGroup := some 1,
                          m_refreshTimelineItemsThread := some ⟨false, false, true⟩ }
      = some { ret := true, items := [1, 2, 3], doRefresh := true
               window := { sampleWindow with m_bRefreshTimelineItems := true,
                                             m_cachedChannelGroup := some 1,
                                             m_refreshTimelineItemsThread :=
                                               some ⟨false, true, false⟩ } } := by
  obtain ⟨r, hget, hiff, hdet, _⟩ := C4_change_detection 2 none [1, 2, 3]
    { sampleWindow with m_cachedChannelGroup := some 1,
                        m_refreshTimelineItemsThread := some ⟨false, false, true⟩ }
    ⟨false, false, true⟩ rfl
  have hdo : r.doRefresh = true := hiff.mpr ⟨1, rfl, by decide⟩
  rw [hget, (hdet hdo).2.1 rfl]
  rfl

/-! ## The display window -/

/-- The display window computed by the code is the one the specification words. -/
lemma displayWindow_eq (F L : CDateTime) (N r : Int) :
    displayWindow F L N r = specDisplayWindow F L N r := by
  obtain ⟨fv, ft⟩ := F
  obtain ⟨lv, lt⟩ := L
  have hspan : CDateTimeSpan r 0 0 0 = 86400 * r := by unfold CDateTimeSpan; ring
  cases fv <;> cases lv <;>
    simp only [displayWindow, specDisplayWindow, CDateTime.IsValid, CDateTime.lt, CDateTime.sub,
      hspan, Bool.not_true, Bool.not_false, Bool.false_or, Bool.true_or, if_true, if_false,
      Bool.false_eq_true, decide_eq_true_eq, true_and, false_and] <;>
    (refine Prod.ext ?_ ?_ <;> simp only [] <;> split_ifs <;>
      first
        | rfl
        | (simp only [CDateTime.mk.injEq, true_and]; omega))

/-- C5. Display-window computation: a refresh cycle (flag set, grid control and group
available) hands to `SetTimelineItems` the fetched timeline with start `max(F', N - r days)` and
end `L` if `L` is valid and `L ≥ F'`, else `F'`, where `F'` is `F` if `F` is valid, else `N`
(`F`, `L` the group's first and last EPG date, `N` the current time, `r` the days to display).
In particular with `F` invalid, `L = T` and `r ≥ 0` the window starts at `N` and ends at `T` if
`T ≥ N`, else at `N`; and with `F = N - 30 days` and `r = 7` it starts at `N - 7 days`. -/
theorem C5_display_window (env : RefreshEnv Item Group) (w : CGUIWindowPVRGuideBase Item Group)
    (g : Group) (hflag : w.m_bRefreshTimelineItems = true) (hgrid : env.gridControl = true)
    (hgroup : env.channelGroup = some g) :
    (RefreshTimelineItems env w).setTimelineItems =
      some (env.epgAll,
        (specDisplayWindow env.firstEPGDate env.lastEPGDate env.currentTime env.iPastDays).1,
        (specDisplayWindow env.firstEPGDate env.lastEPGDate env.currentTime env.iPastDays).2) ∧
    (∀ T : Int, env.firstEPGDate.m_valid = false → env.lastEPGDate = ⟨true, T⟩ →
      0 ≤ env.iPastDays →
      (RefreshTimelineItems env w).setTimelineItems =
        some (env.epgAll, ⟨true, env.currentTime⟩,
          if env.currentTime ≤ T then ⟨true, T⟩ else ⟨true, env.currentTime⟩)) ∧
    (env.firstEPGDate = ⟨true, env.currentTime - 30 * 86400⟩ → env.iPastDays = 7 →
      ∃ endDate, (RefreshTimelineItems env w).setTimelineItems =
        some (env.epgAll, ⟨true, env.currentTime - 7 * 86400⟩, endDate)) := by
  have h : (RefreshTimelineItems env w).setTimelineItems =
      some (env.epgAll,
        (specDisplayWindow env.firstEPGDate env.lastEPGDate env.currentTime env.iPastDays).1,
        (specDisplayWindow env.firstEPGDate env.lastEPGDate env.currentTime env.iPastDays).2) := by
    rw [RefreshTimelineItems_cycle env w g hflag hgrid hgroup, displayWindow_eq]
  refine ⟨h, ?_, ?_⟩
  · intro T hF hL hr
    rw [h, hL]
    simp only [specDisplayWindow, hF, Bool.false_eq_true, if_false, true_and]
    have hmax : max env.currentTime (env.currentTime - 86400 * env.iPastDays)
        = env.currentTime := max_eq_left (by omega)
    rw [hmax]
  · intro hF hr
    refine ⟨(specDisplayWindow env.firstEPGDate env.lastEPGDate env.currentTime
      env.iPastDays).2, ?_⟩
    have hstart : (specDisplayWindow env.firstEPGDate env.lastEPGDate env.currentTime
        env.iPastDays).1 = ⟨true, env.currentTime - 7 * 86400⟩ := by
      have hmax : max (env.currentTime - 30 * 86400) (env.currentTime - 86400 * 7)
          = env.currentTime - 7 * 86400 := by
        rw [max_eq_right (by omega)]; ring
      rw [hF, hr]
      simp only [specDisplayWindow, if_true]
      rw [hmax]
    rw [h, hstart]

/-- Witness of C5: first date unknown, last date 5000, read at time 1000, one day of
retention: the window is from 1000 to 5000. -/
theorem C5_display_window_witness :
    (RefreshTimelineItems sampleEnv
      { sampleWindow with m_bRefreshTimelineItems := true }).setTimelineItems
      = some ([10, 11], ⟨true, 1000⟩, ⟨true, 5000⟩) :=
  ((C5_display_window sampleEnv { sampleWindow with m_bRefreshTimelineItems := true } 1
    rfl rfl rfl).2.1 5000 rfl rfl (by decide)).trans (by decide)

/-! ## The worker loop: adaptive sleep -/

open CPVRRefreshTimelineItemsThread

/-- A pass that starts below the threshold and is not stopped: it waits 1000 ms, records the
count it reads, and counts it if it equals the recorded one, else resets the counter. -/
lemma ProcessIteration_boosted (i : IterationInput Item Group) (s : ProcessState Item Group)
    (h1 : i.stopAtLoopHead = false) (h2 : i.stopBeforeSleep = false)
    (hb : s.iUpdatesWithoutChange < BOOSTED_SLEEPS_THRESHOLD) :
    (ProcessIteration i s).2.exited = false ∧
    (ProcessIteration i s).2.sleep = some 1000 ∧
    (ProcessIteration i s).1.iLastEpgItemsCount = i.itemsCount ∧
    (ProcessIteration i s).1.iUpdatesWithoutChange =
      (if i.itemsCount = s.iLastEpgItemsCount then s.iUpdatesWithoutChange + 1 else 0) := by
  simp [ProcessIteration, h1, h2, hb]

/-- A pass that starts at or above the threshold and is not stopped: it waits 5000 ms and
leaves the recorded count and the counter as they are, whatever the item count is. -/
lemma ProcessIteration_steady (i : IterationInput Item Group) (s : ProcessState Item Group)
    (h1 : i.stopAtLoopHead = false) (h2 : i.stopBeforeSleep = false)
    (hb : ¬ s.iUpdatesWithoutChange < BOOSTED_SLEEPS_THRESHOLD) :
    (ProcessIteration i s).2.exited = false ∧
    (ProcessIteration i s).2.sleep = some 5000 ∧
    (ProcessIteration i s).1.iLastEpgItemsCount = s.iLastEpgItemsCount ∧
    (ProcessIteration i s).1.iUpdatesWithoutChange = s.iUpdatesWithoutChange := by
  simp [ProcessIteration, h1, h2, hb]

/-- The loop over passes that are not stopped and all read the count already recorded, from a
counter `u ≤ 4`: `4 - u` waits of 1000 ms, then waits of 5000 ms; the counter ends at
`min (u + n) 4`. -/
lemma ProcessLoop_constant (c : Int) (inputs : List (IterationInput Item Group)) :
    ∀ (s : ProcessState Item Group) (u : Nat),
      (∀ i ∈ inputs, i.stopAtLoopHead = false ∧ i.stopBeforeSleep = false ∧ i.itemsCount = c) →
      s.iLastEpgItemsCount = c → s.iUpdatesWithoutChange = (u : Int) → u ≤ 4 →
      (ProcessLoop inputs s).2.map (fun o => o.sleep) =
        List.replicate (min inputs.length (4 - u)) (some 1000) ++
          List.replicate (inputs.length - (4 - u)) (some 5000) ∧
      (ProcessLoop inputs s).2.all (fun o => !o.exited) = true ∧
      (ProcessLoop inputs s).1.iUpdatesWithoutChange = ((min (u + inputs.length) 4 : Nat) : Int) := by
  induction inputs with
  | nil =>
    intro s u _ _ hu hu4
    simp [ProcessLoop, hu, hu4]
  | cons i rest ih =>
    intro s u hin hlast hu hu4
    obtain ⟨h1, h2, hc⟩ := hin i (by simp)
    have hrest : ∀ j ∈ rest, j.stopAtLoopHead = false ∧ j.stopBeforeSleep = false ∧
        j.itemsCount = c := fun j hj => hin j (by simp [hj])
    by_cases hb : s.iUpdatesWithoutChange < BOOSTED_SLEEPS_THRESHOLD
    · obtain ⟨he, hs, hl, hcnt⟩ := ProcessIteration_boosted i s h1 h2 hb
      have hu3 : u < 4 := by
        simp only [BOOSTED_SLEEPS_THRESHOLD, hu] at hb; omega
      have hcnt2 : (ProcessIteration i s).1.iUpdatesWithoutChange = ((u + 1 : Nat) : Int) := by
        rw [hcnt, hc, hlast, hu]; simp
      obtain ⟨ihs, ihe, ihc⟩ := ih (ProcessIteration i s).1 (u + 1) hrest (by rw [hl, hc]) hcnt2
        (by omega)
      simp only [ProcessLoop, he, Bool.false_eq_true, if_false, List.map_cons, hs, ihs,
        List.all_cons, Bool.not_false, Bool.true_and, ihe, ihc, List.length_cons]
      refine ⟨?_, trivial, ?_⟩
      · have e1 : min (rest.length + 1) (4 - u) = min rest.length (4 - (u + 1)) + 1 := by omega
        have e2 : rest.length + 1 - (4 - u) = rest.length - (4 - (u + 1)) := by omega
        rw [e1, e2, List.replicate_succ, List.cons_append]
      · congr 1; omega
    · obtain ⟨he, hs, hl, hcnt⟩ := ProcessIteration_steady i s h1 h2 hb
      have hu4e : u = 4 := by
        simp only [BOOSTED_SLEEPS_THRESHOLD, hu] at hb; omega
      subst hu4e
      obtain ⟨ihs, ihe, ihc⟩ := ih (ProcessIteration i s).1 4 hrest (by rw [hl, hlast])
        (by rw [hcnt, hu]) (by omega)
      simp only [ProcessLoop, he, Bool.false_eq_true, if_false, List.map_cons, hs, ihs,
        List.all_cons, Bool.not_false, Bool.true_and, ihe, ihc, List.length_cons]
      refine ⟨?_, trivial, ?_⟩
      · simp [List.replicate_succ]
      · congr 1; omega

/-- Passes in which no stop is requested do not leave the loop. -/
lemma ProcessLoop_not_exited (inputs : List (IterationInput Item Group)) :
    ∀ s : ProcessState Item Group,
      (∀ i ∈ inputs, i.stopAtLoopHead = false ∧ i.stopBeforeSleep = false) →
      (ProcessLoop inputs s).2.all (fun o => !o.exited) = true := by
  induction inputs with
  | nil => intro s _; simp [ProcessLoop]
  | cons i rest ih =>
    intro s hin
    obtain ⟨h1, h2⟩ := hin i (by simp)
    have he : (ProcessIteration i s).2.exited = false := by
      by_cases hb : s.iUpdatesWithoutChange < BOOSTED_SLEEPS_THRESHOLD
      · exact (ProcessIteration_boosted i s h1 h2 hb).1
      · exact (ProcessIteration_steady i s h1 h2 hb).1
    have ihr := ih (ProcessIteration i s).1 (fun j hj => hin j (by simp [hj]))
    simp only [ProcessLoop, he, Bool.false_eq_true, if_false, List.all_cons, Bool.not_false,
      Bool.true_and, ihr]

/-- A run in which no pass leaves the loop: `Process` returns what its loop returns. -/
lemma Process_eq_loop (inputs : List (IterationInput Item Group))
    (w : CGUIWindowPVRGuideBase Item Group)
    (h : (ProcessLoop inputs (processInit w)).2.all (fun o => !o.exited) = true) :
    Process inputs w = ProcessLoop inputs (processInit w) := by
  have hany : (ProcessLoop inputs (processInit w)).2.any (fun o => o.exited) = false := by
    rw [List.any_eq_false]
    intro o ho
    have := (List.all_eq_true.mp h) o ho
    simpa using this
  simp [Process, hany]

/-- C6. Adaptive backoff transition: take a run of passes of the worker loop that are not
stopped and all observe the same item count `c`, starting in a loop state `s` in which the
loop is in boosted mode (counter of unchanged passes from 0 to 3), in particular at the start of
`Process`. Every pass of the run up to and including the 4th consecutive unchanged one waits
SHORT (1000 ms) and every pass after it waits LONG (5000 ms); the counter is below the
threshold 4 before that pass and equal to it from that pass on, so the switch from SHORT to
LONG happens once, right after the 4th unchanged pass. At the start of `Process` that pass is
pass 4 for `c = 0` (the initial recorded count) and pass 5 otherwise. -/
theorem C6_backoff_transition (c : Int) (inputs : List (IterationInput Item Group))
    (s : ProcessState Item Group)
    (h : ∀ i ∈ inputs, i.stopAtLoopHead = false ∧ i.stopBeforeSleep = false ∧ i.itemsCount = c)
    (h0 : 0 ≤ s.iUpdatesWithoutChange)
    (hb : s.iUpdatesWithoutChange < BOOSTED_SLEEPS_THRESHOLD) :
    ((ProcessLoop inputs s).2.map (fun o => o.sleep) =
      List.replicate (min inputs.length (fourthUnchangedPass s c)) (some 1000) ++
        List.replicate (inputs.length - fourthUnchangedPass s c) (some 5000) ∧
     (inputs.length < fourthUnchangedPass s c →
       (ProcessLoop inputs s).1.iUpdatesWithoutChange < BOOSTED_SLEEPS_THRESHOLD) ∧
     (fourthUnchangedPass s c ≤ inputs.length →
       (ProcessLoop inputs s).1.iUpdatesWithoutChange = BOOSTED_SLEEPS_THRESHOLD)) ∧
    (∀ w : CGUIWindowPVRGuideBase Item Group,
      Process inputs w = ProcessLoop inputs (processInit w) ∧
      fourthUnchangedPass (processInit w) c = if c = 0 then 4 else 5) := by
  have hstops : ∀ i ∈ inputs, i.stopAtLoopHead = false ∧ i.stopBeforeSleep = false :=
    fun i hi => ⟨(h i hi).1, (h i hi).2.1⟩
  refine ⟨?_, fun w => ⟨Process_eq_loop inputs w (ProcessLoop_not_exited inputs _ hstops), ?_⟩⟩
  · obtain ⟨u, hu⟩ := Int.eq_ofNat_of_zero_le h0
    have hu3 : u < 4 := by
      simp only [BOOSTED_SLEEPS_THRESHOLD, hu] at hb; omega
    by_cases hc : c = s.iLastEpgItemsCount
    · obtain ⟨hs, _, hcnt⟩ := ProcessLoop_constant c inputs s u h hc.symm hu (by omega)
      have hk : fourthUnchangedPass s c = 4 - u := by
        simp only [fourthUnchangedPass, hc, if_true, BOOSTED_SLEEPS_THRESHOLD, hu]; omega
      rw [hs, hcnt, hk]
      simp only [BOOSTED_SLEEPS_THRESHOLD]
      refine ⟨trivial, ?_, ?_⟩ <;> intro hlen <;> omega
    · have hk : fourthUnchangedPass s c = 5 := by
        simp only [fourthUnchangedPass, hc, if_false, BOOSTED_SLEEPS_THRESHOLD]; rfl
      rw [hk]
      cases inputs with
      | nil => simp [ProcessLoop, hb]
      | cons i rest =>
        obtain ⟨h1, h2, hic⟩ := h i (by simp)
        have hrest : ∀ j ∈ rest, j.stopAtLoopHead = false ∧ j.stopBeforeSleep = false ∧
            j.itemsCount = c := fun j hj => h j (by simp [hj])
        obtain ⟨he, hsl, hl, hcnt⟩ := ProcessIteration_boosted i s h1 h2 hb
        have hcnt0 : (ProcessIteration i s).1.iUpdatesWithoutChange = ((0 : Nat) : Int) := by
          rw [hcnt, hic, if_neg hc]; rfl
        obtain ⟨ihs, _, ihc⟩ := ProcessLoop_constant c rest (ProcessIteration i s).1 0
          hrest (by rw [hl, hic]) hcnt0 (by omega)
        simp only [ProcessLoop, he, Bool.false_eq_true, if_false, List.map_cons, hsl, ihs, ihc,
          List.length_cons, BOOSTED_SLEEPS_THRESHOLD]
        refine ⟨?_, ?_, ?_⟩
        · have e1 : min (rest.length + 1) 5 = min rest.length (4 - 0) + 1 := by omega
          have e2 : rest.length + 1 - 5 = rest.length - (4 - 0) := by omega
          rw [e1, e2, List.replicate_succ, List.cons_append]
        · intro hlen; omega
        · intro hlen; omega
  · by_cases hc : c = 0
    · simp [fourthUnchangedPass, processInit, hc, BOOSTED_SLEEPS_THRESHOLD]
    · simp only [fourthUnchangedPass, processInit, hc, if_false, BOOSTED_SLEEPS_THRESHOLD]; rfl

/-- Witness of C6: from the start of `Process`, seven passes that all observe 120 entries wait
1000 ms five times, then 5000 ms. -/
theorem C6_backoff_transition_witness :
    (Process (sampleInputs [120, 120, 120, 120, 120, 120, 120]) sampleWindow).2.map
        (fun o => o.sleep)
      = [some 1000, some 1000, some 1000, some 1000, some 1000, some 5000, some 5000] :=
  have h := C6_backoff_transition 120 (sampleInputs [120, 120, 120, 120, 120, 120, 120])
    (processInit sampleWindow) (by decide) (by decide) (by decide)
  ((h.2 sampleWindow).1 ▸ h.1.1 : _)

/-- C7, as stated, fails: after five passes that all observe 7 entries (five waits of
1000 ms, recorded count 7, counter 4), a sixth pass that observes 8 entries waits 5000 ms and
leaves the counter at 4 instead of resetting it to 0 and waiting 1000 ms. -/
theorem C7_backoff_reset_counterexample :
    (Process (sampleInputs [7, 7, 7, 7, 7]) sampleWindow).1.iLastEpgItemsCount = 7 ∧
    (Process (sampleInputs [7, 7, 7, 7, 7]) sampleWindow).1.iUpdatesWithoutChange = 4 ∧
    (Process (sampleInputs [7, 7, 7, 7, 7, 8]) sampleWindow).2.map (fun o => o.sleep)
      = [some 1000, some 1000, some 1000, some 1000, some 1000, some 5000] ∧
    (Process (sampleInputs [7, 7, 7, 7, 7, 8]) sampleWindow).1.iUpdatesWithoutChange = 4 := by
  decide

/-- C7, amended. Adaptive backoff reset: a pass of the worker loop that is not stopped and
starts with the counter below the threshold (`iUpdatesWithoutChange < 4`) and observes an
item count different from the recorded one resets the counter to 0, records the new count and
waits SHORT (1000 ms). A pass that starts with the counter at the threshold does not read the
item count: whatever the count is, the counter and the recorded count stay and the wait is
LONG (5000 ms). -/
theorem C7_backoff_reset (i : IterationInput Item Group) (s : ProcessState Item Group)
    (h1 : i.stopAtLoopHead = false) (h2 : i.stopBeforeSleep = false)
    (hne : i.itemsCount ≠ s.iLastEpgItemsCount) :
    (s.iUpdatesWithoutChange < BOOSTED_SLEEPS_THRESHOLD →
      (ProcessIteration i s).1.iUpdatesWithoutChange = 0 ∧
      (ProcessIteration i s).1.iLastEpgItemsCount = i.itemsCount ∧
      (ProcessIteration i s).2.sleep = some 1000) ∧
    (¬ s.iUpdatesWithoutChange < BOOSTED_SLEEPS_THRESHOLD →
      (ProcessIteration i s).1.iUpdatesWithoutChange = s.iUpdatesWithoutChange ∧
      (ProcessIteration i s).1.iLastEpgItemsCount = s.iLastEpgItemsCount ∧
      (ProcessIteration i s).2.sleep = some 5000) := by
  constructor
  · intro hb
    obtain ⟨_, hs, hl, hcnt⟩ := ProcessIteration_boosted i s h1 h2 hb
    exact ⟨by rw [hcnt, if_neg hne], hl, hs⟩
  · intro hb
    obtain ⟨_, hs, hl, hcnt⟩ := ProcessIteration_steady i s h1 h2 hb
    exact ⟨hcnt, hl, hs⟩

/-- Witness of C7 amended: with count 7 recorded and the counter at 2, a pass that observes 8
entries resets the counter and waits 1000 ms. -/
theorem C7_backoff_reset_witness :
    (ProcessIteration
      { foreground := fun w => w, stopAtLoopHead := false, stopAfterRefresh := false,
        stopBeforeSleep := false, env := sampleEnv, itemsCount := 8 }
      { iLastEpgItemsCount := 7, iUpdatesWithoutChange := 2, window := sampleWindow }).1.iUpdatesWithoutChange
      = 0 :=
  ((C7_backoff_reset
      { foreground := fun w => w, stopAtLoopHead := false, stopAfterRefresh := false,
        stopBeforeSleep := false, env := sampleEnv, itemsCount := 8 }
      { iLastEpgItemsCount := 7, iUpdatesWithoutChange := 2, window := sampleWindow }
      rfl rfl (by decide)).1 (by decide)).1

/-! ## Skipped cycles -/

/-- A call with the flag set that finds no grid control or no group: it returns false, makes
no call of `SetTimelineItems` and only clears the flag. -/
lemma RefreshTimelineItems_skipped (env : RefreshEnv Item Group)
    (w : CGUIWindowPVRGuideBase Item Group)
    (h : env.gridControl = false ∨ env.channelGroup = none) :
    RefreshTimelineItems env w =
      { ret := false, window := { w with m_bRefreshTimelineItems := false },
        setTimelineItems := none } := by
  unfold RefreshTimelineItems
  rcases h with h | h
  · cases w.m_bRefreshTimelineItems <;> simp [h]
  · cases w.m_bRefreshTimelineItems <;> cases env.gridControl <;> simp [h]

/-- C8. Skipped cycle on failure: with the channel group unavailable (and the dirty flag
set, or not), `RefreshTimelineItems` returns false, publishes nothing (`m_newTimeline`,
`m_cachedChannelGroup` unchanged, no call of `SetTimelineItems`) and leaves the flag cleared;
a pass of the worker loop that meets this sends no notification, leaves the loop only if a
stop is requested, and otherwise goes on to its wait (1000 or 5000 ms), with the pending
timeline and the cached group as before and the flag clear. -/
theorem C8_skipped_cycle (i : IterationInput Item Group) (s : ProcessState Item Group)
    (hgroup : i.env.channelGroup = none) (hstop : i.stopAtLoopHead = false) :
    (∀ w : CGUIWindowPVRGuideBase Item Group,
      RefreshTimelineItems i.env w =
        { ret := false, window := { w with m_bRefreshTimelineItems := false },
          setTimelineItems := none }) ∧
    (ProcessIteration i s).2.notified = false ∧
    (ProcessIteration i s).2.exited = i.stopBeforeSleep ∧
    (i.stopBeforeSleep = false →
      ((ProcessIteration i s).2.sleep = some 1000 ∨ (ProcessIteration i s).2.sleep = some 5000)) ∧
    (ProcessIteration i s).1.window.m_newTimeline = (i.foreground s.window).m_newTimeline ∧
    (ProcessIteration i s).1.window.m_cachedChannelGroup
      = (i.foreground s.window).m_cachedChannelGroup ∧
    (ProcessIteration i s).1.window.m_bRefreshTimelineItems = false := by
  have hskip : ∀ w : CGUIWindowPVRGuideBase Item Group,
      RefreshTimelineItems i.env w =
        { ret := false, window := { w with m_bRefreshTimelineItems := false },
          setTimelineItems := none } :=
    fun w => RefreshTimelineItems_skipped i.env w (Or.inr hgroup)
  refine ⟨hskip, ?_⟩
  cases hb : i.stopBeforeSleep
  · by_cases hlt : s.iUpdatesWithoutChange < BOOSTED_SLEEPS_THRESHOLD <;>
      simp [ProcessIteration, hstop, hb, hskip, hlt, setEvents]
  · simp [ProcessIteration, hstop, hb, hskip, setEvents]

/-- Witness of C8: a pass on a window with a pending timeline, the flag set and no group sends
no notification, stays in the loop and keeps the pending timeline. -/
theorem C8_skipped_cycle_witness :
    (ProcessIteration
      { foreground := fun w => w, stopAtLoopHead := false, stopAfterRefresh := false,
        stopBeforeSleep := false, env := sampleEnvNoGroup, itemsCount := 3 }
      { iLastEpgItemsCount := 3, iUpdatesWithoutChange := 1,
        window := { sampleWindow with m_bRefreshTimelineItems := true,
                                      m_newTimeline := some [7] } }).2.notified = false ∧
    (ProcessIteration
      { foreground := fun w => w, stopAtLoopHead := false, stopAfterRefresh := false,
        stopBeforeSleep := false, env := sampleEnvNoGroup, itemsCount := 3 }
      { iLastEpgItemsCount := 3, iUpdatesWithoutChange := 1,
        window := { sampleWindow with m_bRefreshTimelineItems := true,
                                      m_newTimeline := some [7] } }).2.exited = false ∧
    (ProcessIteration
      { foreground := fun w => w, stopAtLoopHead := false, stopAfterRefresh := false,
        stopBeforeSleep := false, env := sampleEnvNoGroup, itemsCount := 3 }
      { iLastEpgItemsCount := 3, iUpdatesWithoutChange := 1,
        window := { sampleWindow with m_bRefreshTimelineItems := true,
                                      m_newTimeline := some [7] } }).1.window.m_newTimeline
      = some [7] :=
  have h := C8_skipped_cycle
    { foreground := fun w => w, stopAtLoopHead := false, stopAfterRefresh := false,
      stopBeforeSleep := false, env := sampleEnvNoGroup, itemsCount := 3 }
    { iLastEpgItemsCount := 3, iUpdatesWithoutChange := 1,
      window := { sampleWindow with m_bRefreshTimelineItems := true,
                                    m_newTimeline := some [7] } }
    rfl rfl
  ⟨h.2.1, h.2.2.1, h.2.2.2.2.1⟩

/-- C9, as stated, fails: a call with the flag set and no channel group skips the cycle and
clears the flag; the next call, with the grid control and group 1 available and no request in
between, returns false, fetches nothing and publishes nothing. -/
theorem C9_failed_cycle_retried_counterexample :
    (RefreshTimelineItems sampleEnvNoGroup
      { sampleWindow with m_bRefreshTimelineItems := true }).ret = false ∧
    RefreshTimelineItems sampleEnv
      (RefreshTimelineItems sampleEnvNoGroup
        { sampleWindow with m_bRefreshTimelineItems := true }).window
      = { ret := false, window := sampleWindow, setTimelineItems := none } := by
  decide

/-- C9, amended. A failed cycle is retried after a new request only: after a call of
`RefreshTimelineItems` that skipped the cycle because the grid control or the group was
unavailable, the next call with no refresh request in between performs no cycle (it returns
false and changes nothing), even with the grid control and the group available again; once a
refresh request has set the flag again (here `N ≥ 1` refresh-triggering calls of `Notify`),
the next call with the grid control and the group available performs the cycle: it returns
true, hands the fetched timeline to the grid and publishes it with its group. -/
theorem C9_failed_cycle_retried (fw : Framework Item Group) (msgs : List ObservableMessage)
    (w : CGUIWindowPVRGuideBase Item Group) (envFail env : RefreshEnv Item Group) (g : Group)
    (hfail : envFail.gridControl = false ∨ envFail.channelGroup = none)
    (hgrid : env.gridControl = true) (hgroup : env.channelGroup = some g)
    (hN : 1 ≤ msgs.length) (hmsgs : ∀ m ∈ msgs, triggersRefresh m = true) :
    RefreshTimelineItems envFail w =
      { ret := false, window := { w with m_bRefreshTimelineItems := false },
        setTimelineItems := none } ∧
    RefreshTimelineItems env (RefreshTimelineItems envFail w).window =
      { ret := false, window := (RefreshTimelineItems envFail w).window,
        setTimelineItems := none } ∧
    (RefreshTimelineItems env (notifyAll fw msgs (RefreshTimelineItems envFail w).window)).ret
      = true ∧
    (RefreshTimelineItems env
      (notifyAll fw msgs (RefreshTimelineItems envFail w).window)).setTimelineItems.isSome
      = true ∧
    (RefreshTimelineItems env
      (notifyAll fw msgs (RefreshTimelineItems envFail w).window)).window.m_newTimeline
      = some env.epgAll ∧
    (RefreshTimelineItems env
      (notifyAll fw msgs (RefreshTimelineItems envFail w).window)).window.m_cachedChannelGroup
      = some g := by
  have hflag := notifyAll_flag fw msgs (RefreshTimelineItems envFail w).window hN hmsgs
  have hcycle := RefreshTimelineItems_cycle env _ g hflag hgrid hgroup
  refine ⟨RefreshTimelineItems_skipped envFail w hfail,
    RefreshTimelineItems_idle env _ (RefreshTimelineItems_flag envFail w), ?_, ?_, ?_, ?_⟩ <;>
    (rw [hcycle]; try rfl)

/-- Witness of C9 amended: a cycle skipped for want of a group, three notifications, then a
call that finds group 1. -/
theorem C9_failed_cycle_retried_witness :
    (RefreshTimelineItems sampleEnv
      (notifyAll sampleFramework sampleMessages
        (RefreshTimelineItems sampleEnvNoGroup
          { sampleWindow with m_bRefreshTimelineItems := true }).window)).ret = true :=
  (C9_failed_cycle_retried sampleFramework sampleMessages
    { sampleWindow with m_bRefreshTimelineItems := true } sampleEnvNoGroup sampleEnv 1
    (Or.inr rfl) rfl rfl (by decide) (by decide)).2.2.1

/-! ## The dirty flag -/

/-- The function `StartRefreshTimelineItemsThread` and `StopRefreshTimelineItemsThread` do not
touch the flag. -/
lemma StartRefreshTimelineItemsThread_flag (w : CGUIWindowPVRGuideBase Item Group) :
    (StartRefreshTimelineItemsThread w).m_bRefreshTimelineItems = w.m_bRefreshTimelineItems ∧
    (StopRefreshTimelineItemsThread w).m_bRefreshTimelineItems = w.m_bRefreshTimelineItems :=
  ⟨rfl, rfl⟩

/-- The function `InitEpgGridControl` leaves a set flag set. -/
lemma InitEpgGridControl_flag (g : GridControlView) (w : CGUIWindowPVRGuideBase Item Group)
    (hset : w.m_bRefreshTimelineItems = true) :
    (InitEpgGridControl g w).m_bRefreshTimelineItems = true := by
  unfold InitEpgGridControl
  rw [(StartRefreshTimelineItemsThread_flag _).1]
  cases g.gridControl <;> cases g.HasData <;> simp [hset]

/-- The function `Notify` leaves a set flag set, if the framework does. -/
lemma Notify_flag (fw : Framework Item Group)
    (hfw : ∀ c v, v.m_bRefreshTimelineItems = true → (fw c v).2.m_bRefreshTimelineItems = true)
    (msg : ObservableMessage) (w : CGUIWindowPVRGuideBase Item Group)
    (hset : w.m_bRefreshTimelineItems = true) :
    (Notify fw msg w).m_bRefreshTimelineItems = true := by
  unfold Notify
  split
  · rfl
  · exact hfw _ _ hset

/-- The function `GetDirectory` leaves a set flag set when the worker does not run during
`DoRefresh`. -/
lemma GetDirectory_flag [DecidableEq Group] (channelGroup : Option Group) (items : List Item)
    (w : CGUIWindowPVRGuideBase Item Group) (r : GetDirectoryResult Item Group)
    (hset : w.m_bRefreshTimelineItems = true)
    (hr : GetDirectory channelGroup none items w = some r) :
    r.window.m_bRefreshTimelineItems = true := by
  have htake : ∀ v : CGUIWindowPVRGuideBase Item Group,
      (takeNewTimeline items v).2.m_bRefreshTimelineItems = v.m_bRefreshTimelineItems := by
    intro v; unfold takeNewTimeline; split <;> rfl
  unfold GetDirectory at hr
  cases hd : detectGroupChange channelGroup w with
  | none => rw [hd] at hr; simp at hr
  | some p =>
    obtain ⟨b, w1⟩ := p
    have hw1 : w1.m_bRefreshTimelineItems = true := by
      unfold detectGroupChange at hd
      cases hc : w.m_cachedChannelGroup with
      | none => rw [hc] at hd; simp at hd; rw [← hd.2]; exact hset
      | some cached =>
        rw [hc] at hd
        cases channelGroup with
        | none => simp at hd
        | some current =>
          by_cases hne : cached = current
          · simp [hne] at hd; rw [← hd.2]; exact hset
          · simp [hne] at hd; rw [← hd.2]
    rw [hd] at hr
    cases b with
    | false =>
      simp at hr
      rw [← hr, htake]; exact hw1
    | true =>
      cases ht : w1.m_refreshTimelineItemsThread with
      | none => simp [callDoRefresh, ht] at hr
      | some t =>
        simp [callDoRefresh, ht] at hr
        rw [← hr, htake]; exact hw1

/-- The function `OnMessage` leaves a set flag set, if the framework does. -/
lemma OnMessage_flag (fw : Framework Item Group)
    (hfw : ∀ c v, v.m_bRefreshTimelineItems = true → (fw c v).2.m_bRefreshTimelineItems = true)
    (g : GridControlView) (message : CGUIMessage) (w : CGUIWindowPVRGuideBase Item Group)
    (hset : w.m_bRefreshTimelineItems = true) :
    (OnMessage fw g message w).2.m_bRefreshTimelineItems = true := by
  have hfinal : ∀ r : Bool × CGUIWindowPVRGuideBase Item Group,
      r.2.m_bRefreshTimelineItems = true →
      (if r.1 = true then (true, r.2) else fw (BaseCall.OnMessage message) r.2).2.m_bRefreshTimelineItems
        = true := by
    intro r hr
    split
    · exact hr
    · exact hfw _ _ hr
  unfold OnMessage
  apply hfinal
  cases message.GetMessage with
  | GUI_MSG_CLICKED => exact hfw _ _ hset
  | GUI_MSG_CHANGE_VIEW_MODE =>
    exact hfw _ _ (InitEpgGridControl_flag g _ rfl)
  | GUI_MSG_REFRESH_LIST =>
    cases message.GetParam1 with
    | ObservableMessageChannelGroupsLoaded =>
      exact InitEpgGridControl_flag g _ (hfw _ _ hset)
    | ObservableMessageChannelGroupReset => exact hfw _ _ hset
    | ObservableMessageChannelGroup => exact hfw _ _ hset
    | ObservableMessageEpg => exact hfw _ _ hset
    | ObservableMessageEpgContainer => exact hfw _ _ hset
    | ObservableMessageTimersReset => exact hfw _ _ hset
    | ObservableMessageTimers => exact hfw _ _ hset
    | ObservableMessageOther code => exact hset
  | GUI_MSG_OTHER id => exact hset

/-- C10, as stated, fails: the destructor, run on a window whose flag is set, leaves the flag
false. -/
theorem C10_dirty_flag_counterexample :
    ({ sampleWindow with m_bRefreshTimelineItems := true } :
        CGUIWindowPVRGuideBase Nat Nat).m_bRefreshTimelineItems = true ∧
    (destructor { sampleWindow with m_bRefreshTimelineItems := true }).m_bRefreshTimelineItems
      = false := by
  decide

/-- C10, amended. Dirty-flag invariant: `m_bRefreshTimelineItems` goes from true to false in
the claim step at the start of `RefreshTimelineItems` and in the destructor, which assigns
false, and nowhere else: `Notify`, `InitEpgGridControl`, `GetDirectory` (the worker not running
during its `DoRefresh`), `OnMessage`, `ClearData` and `OnDeinitWindow` leave a set flag set,
provided the framework calls they make do; and `RefreshTimelineItems` never sets the flag to
true: the flag is false after every call of it. -/
theorem C10_dirty_flag_invariant [DecidableEq Group] (fw : Framework Item Group)
    (w : CGUIWindowPVRGuideBase Item Group)
    (hfw : ∀ c v, v.m_bRefreshTimelineItems = true → (fw c v).2.m_bRefreshTimelineItems = true)
    (hset : w.m_bRefreshTimelineItems = true) :
    (∀ (env : RefreshEnv Item Group) (v : CGUIWindowPVRGuideBase Item Group),
      (RefreshTimelineItems env v).window.m_bRefreshTimelineItems = false) ∧
    (destructor w).m_bRefreshTimelineItems = false ∧
    (∀ msg, (Notify fw msg w).m_bRefreshTimelineItems = true) ∧
    (∀ g, (InitEpgGridControl g w).m_bRefreshTimelineItems = true) ∧
    (∀ (channelGroup : Option Group) (items : List Item) (r : GetDirectoryResult Item Group),
      GetDirectory channelGroup none items w = some r →
      r.window.m_bRefreshTimelineItems = true) ∧
    (∀ g message, (OnMessage fw g message w).2.m_bRefreshTimelineItems = true) ∧
    (ClearData fw w).m_bRefreshTimelineItems = true ∧
    (∀ nextWindowID, (OnDeinitWindow fw nextWindowID w).m_bRefreshTimelineItems = true) := by
  refine ⟨RefreshTimelineItems_flag, rfl, fun msg => Notify_flag fw hfw msg w hset,
    fun g => InitEpgGridControl_flag g w hset,
    fun channelGroup items r hr => GetDirectory_flag channelGroup items w r hset hr,
    fun g message => OnMessage_flag fw hfw g message w hset, hfw _ _ hset, ?_⟩
  intro nextWindowID
  unfold OnDeinitWindow
  apply hfw
  simp only []
  split <;> exact hset

/-- Witness of C10 amended: on a window with the flag set, a timers message handled by
`OnMessage` leaves the flag set. -/
theorem C10_dirty_flag_invariant_witness :
    (OnMessage sampleFramework { gridControl := true, SetChannel := true, HasData := true }
      { GetMessage := GUIMessageId.GUI_MSG_REFRESH_LIST, GetSenderId := 0,
        GetParam1 := ObservableMessage.ObservableMessageTimers }
      { sampleWindow with m_bRefreshTimelineItems := true }).2.m_bRefreshTimelineItems = true ∧
    (ClearData sampleFramework
      { sampleWindow with m_bRefreshTimelineItems := true }).m_bRefreshTimelineItems = true :=
  have h := C10_dirty_flag_invariant sampleFramework
    { sampleWindow with m_bRefreshTimelineItems := true } (fun _ _ hv => hv) rfl
  ⟨h.2.2.2.2.2.1 _ _, h.2.2.2.2.2.2.1⟩

/-! ## The order of the display window -/

/-- C12, evaluated where it fails: for a group whose first EPG date is thirty days and whose
last EPG date is twenty days before the current time 3000000, with seven days of retention,
`RefreshTimelineItems` hands to `SetTimelineItems` the start `3000000 - 7 days` and the end
`3000000 - 20 days`: the end is before the start. In general the start handed over is at or
before the end exactly when the retention limit `N - r days` is at or before that end: the
end is made no earlier than the start before the start is raised to the limit, and not
after. -/
theorem C12_display_window_order_failing_input :
    (RefreshTimelineItems sampleEnvStale
      { sampleWindow with m_bRefreshTimelineItems := true }).setTimelineItems
      = some ([30], ⟨true, 3000000 - 7 * 86400⟩, ⟨true, 3000000 - 20 * 86400⟩) ∧
    CDateTime.lt ⟨true, 3000000 - 20 * 86400⟩ ⟨true, 3000000 - 7 * 86400⟩ = true ∧
    (∀ (F L : CDateTime) (N r : Int),
      (displayWindow F L N r).1.m_time ≤ (displayWindow F L N r).2.m_time ↔
        N - 86400 * r ≤ (displayWindow F L N r).2.m_time) := by
  refine ⟨by decide, by decide, ?_⟩
  intro F L N r
  rw [displayWindow_eq]
  obtain ⟨fv, ft⟩ := F
  obtain ⟨lv, lt⟩ := L
  cases fv <;> cases lv <;>
    simp only [specDisplayWindow, Bool.false_eq_true, if_false, if_true, false_and, true_and,
      max_le_iff] <;>
    (try split_ifs) <;> (try simp only []) <;> omega

/-! ## Stopping the worker -/

/-- Writing an event of the thread object does not change what the worker reads as its stop
flag. -/
lemma stopRequested_setEvents (f : CPVRRefreshTimelineItemsThread → CPVRRefreshTimelineItemsThread)
    (hf : ∀ t, (f t).m_bStop = t.m_bStop) (w : CGUIWindowPVRGuideBase Item Group) :
    stopRequested (setEvents f w) = stopRequested w := by
  unfold stopRequested setEvents
  cases w.m_refreshTimelineItemsThread with
  | none => rfl
  | some t => simp [hf]

/-- A step of the worker with the stop flag raised: the flag stays raised, the bound on the
steps to the return of `Process` goes down, no pass of the loop is entered, and a message is
sent only from the place of the sending, which is not reached from any other place. -/
lemma ProcessStep_stopped (env : RefreshEnv Item Group) (itemsCount : Int)
    (r : ProcessRun Item Group) (hstop : stopRequested r.state.window = true) :
    stopRequested (ProcessStep env itemsCount r).1.state.window = true ∧
    stepsToReturn (ProcessStep env itemsCount r).1.point ≤ stepsToReturn r.point - 1 ∧
    (ProcessStep env itemsCount r).2 ≠ ProcessEvent.passEntered ∧
    (r.point ≠ ProcessPoint.send →
      (ProcessStep env itemsCount r).1.point ≠ ProcessPoint.send ∧
      (ProcessStep env itemsCount r).2 ≠ ProcessEvent.messageSent) := by
  obtain ⟨point, s⟩ := r
  simp only at hstop
  have hev : ∀ f : CPVRRefreshTimelineItemsThread → CPVRRefreshTimelineItemsThread,
      (∀ t, (f t).m_bStop = t.m_bStop) → stopRequested (setEvents f s.window) = true :=
    fun f hf => by rw [stopRequested_setEvents f hf, hstop]
  have hflag : ∀ (b : Bool),
      stopRequested { s.window with m_bRefreshTimelineItems := b } = true := fun _ => hstop
  have hpub : ∀ (tl : List Item) (g : Group),
      stopRequested { s.window with m_newTimeline := some tl, m_cachedChannelGroup := some g }
        = true := fun _ _ => hstop
  cases point with
  | loopCondition => simp [ProcessStep, hstop, stepsToReturn]
  | resetDone => simp [ProcessStep, stepsToReturn, hev]
  | claim =>
    cases hb : s.window.m_bRefreshTimelineItems <;>
      simp [ProcessStep, stepsToReturn, hb, hflag]
  | fetch =>
    cases hg : env.gridControl <;> cases hc : env.channelGroup <;>
      simp [ProcessStep, stepsToReturn, hg, hc, hstop]
  | publish timeline group => simp [ProcessStep, stepsToReturn, hpub]
  | stopTest => simp [ProcessStep, hstop, stepsToReturn]
  | send => simp [ProcessStep, hstop, stepsToReturn]
  | breakTest => simp [ProcessStep, hstop, stepsToReturn]
  | setDone => simp [ProcessStep, stepsToReturn, hev]
  | readCount =>
    by_cases hb : s.iUpdatesWithoutChange < BOOSTED_SLEEPS_THRESHOLD <;>
      simp [ProcessStep, hb, stepsToReturn, hstop]
  | wait ms => simp [ProcessStep, hstop, stepsToReturn]
  | resetReady => simp [ProcessStep, stepsToReturn, hev]
  | epilogueReady => simp [ProcessStep, stepsToReturn, hev]
  | epilogueDone => simp [ProcessStep, stepsToReturn, hev]
  | returned => simp [ProcessStep, hstop, stepsToReturn]

/-- Only the return of `Process` has the bound zero. -/
lemma stepsToReturn_eq_zero (p : ProcessPoint Item Group) (h : stepsToReturn p = 0) :
    p = ProcessPoint.returned := by
  cases p <;> simp [stepsToReturn] at h ⊢

/-- No place has a bound above eight. -/
lemma stepsToReturn_le_eight (p : ProcessPoint Item Group) : stepsToReturn p ≤ 8 := by
  cases p <;> simp [stepsToReturn]

/-- With the stop flag raised and no other thread acting, the worker has returned from
`Process` after as many steps as the bound of its place, at most eight; on the way it enters
no pass of the loop, and it sends a message only if it stood at the sending. -/
lemma ProcessSteps_stopped (reads : List (RefreshEnv Item Group × Int)) :
    ∀ r : ProcessRun Item Group, stopRequested r.state.window = true →
      stepsToReturn r.point ≤ reads.length →
      (ProcessSteps reads r).1.point = ProcessPoint.returned ∧
      (∀ e ∈ (ProcessSteps reads r).2, e ≠ ProcessEvent.passEntered) ∧
      (r.point ≠ ProcessPoint.send →
        ∀ e ∈ (ProcessSteps reads r).2, e ≠ ProcessEvent.messageSent) := by
  induction reads with
  | nil =>
    intro r _ hlen
    simp only [List.length_nil, Nat.le_zero] at hlen
    simp [ProcessSteps, stepsToReturn_eq_zero r.point hlen]
  | cons read rest ih =>
    intro r hstop hlen
    obtain ⟨hs, hsteps, hpass, hsend⟩ := ProcessStep_stopped read.1 read.2 r hstop
    obtain ⟨ihp, ihe, ihm⟩ := ih (ProcessStep read.1 read.2 r).1 hs
      (by simp only [List.length_cons] at hlen; omega)
    simp only [ProcessSteps, List.mem_cons]
    refine ⟨ihp, ?_, ?_⟩
    · rintro e (rfl | he)
      · exact hpass
      · exact ihe e he
    · intro hne
      rintro e (rfl | he)
      · exact (hsend hne).2
      · exact ihm (hsend hne).1 e he

/-- A call of `Stop` does to the window what `StopRefreshTimelineItemsThread` does, and leaves
the worker where it stands. -/
lemma stopCall_eq (reads : List (RefreshEnv Item Group × Int)) (r : ProcessRun Item Group) :
    stopCall reads r = some (onWindow StopRefreshTimelineItemsThread r) := by
  obtain ⟨point, s⟩ := r
  simp only [stopCall, StopThread, onWindow, setEvents, StopRefreshTimelineItemsThread,
    Bool.false_eq_true, if_false, Option.map_some', Option.map_map]
  rfl

/-- At a place of a refresh cycle in flight the worker's step after a call of `Stop` is the
step it takes without that call. -/
lemma ProcessStep_in_flight (env : RefreshEnv Item Group) (itemsCount : Int)
    (r : ProcessRun Item Group) (h : cycleInFlight r.point = true) :
    ProcessStep env itemsCount (onWindow StopRefreshTimelineItemsThread r) =
      (onWindow StopRefreshTimelineItemsThread (ProcessStep env itemsCount r).1,
       (ProcessStep env itemsCount r).2) := by
  obtain ⟨point, s⟩ := r
  cases point with
  | claim =>
    cases hb : s.window.m_bRefreshTimelineItems <;>
      simp [ProcessStep, onWindow, StopRefreshTimelineItemsThread, hb]
  | fetch =>
    cases hg : env.gridControl <;> cases hc : env.channelGroup <;>
      simp [ProcessStep, onWindow, hg, hc]
  | publish timeline group => simp [ProcessStep, onWindow, StopRefreshTimelineItemsThread]
  | send => simp [ProcessStep, onWindow]
  | _ => simp [cycleInFlight] at h

/-- The steps of one pass, with no stop requested and no other thread acting, do what the
pass of `ProcessIteration` does: after at most twelve steps the worker is back at the loop
condition in the state `ProcessIteration` gives, it has sent a message exactly if the pass
notifies, and it has waited with the timeout of the pass. -/
lemma ProcessSteps_pass (env : RefreshEnv Item Group) (itemsCount : Int)
    (s : ProcessState Item Group) (hstop : stopRequested s.window = false) :
    ∃ n, n ≤ 12 ∧
      (ProcessSteps (List.replicate n (env, itemsCount))
          { point := ProcessPoint.loopCondition, state := s }).1 =
        { point := ProcessPoint.loopCondition
          state := (ProcessIteration
            { foreground := fun w => w, stopAtLoopHead := false, stopAfterRefresh := false,
              stopBeforeSleep := false, env := env, itemsCount := itemsCount } s).1 } ∧
      (ProcessEvent.messageSent ∈ (ProcessSteps (List.replicate n (env, itemsCount))
          { point := ProcessPoint.loopCondition, state := s }).2 ↔
        (ProcessIteration
          { foreground := fun w => w, stopAtLoopHead := false, stopAfterRefresh := false,
            stopBeforeSleep := false, env := env, itemsCount := itemsCount } s).2.notified
          = true) ∧
      (∀ ms, ProcessEvent.waited ms ∈ (ProcessSteps (List.replicate n (env, itemsCount))
          { point := ProcessPoint.loopCondition, state := s }).2 ↔
        (ProcessIteration
          { foreground := fun w => w, stopAtLoopHead := false, stopAfterRefresh := false,
            stopBeforeSleep := false, env := env, itemsCount := itemsCount } s).2.sleep
          = some ms) := by
  obtain ⟨iLast, iUpd, w⟩ := s
  obtain ⟨flag, cached, newTimeline, vecItems, restored, thread⟩ := w
  cases thread with
  | none => simp [stopRequested] at hstop
  | some t =>
    obtain ⟨stop, ready, done⟩ := t
    simp only [stopRequested] at hstop
    subst hstop
    by_cases hb : iUpd < BOOSTED_SLEEPS_THRESHOLD
    · cases flag
      · refine ⟨8, by omega, ?_⟩
        simp [List.replicate, ProcessSteps, ProcessStep, ProcessIteration, RefreshTimelineItems,
          stopRequested, setEvents, hb, eq_comm]
      · cases hg : env.gridControl
        · refine ⟨9, by omega, ?_⟩
          simp [List.replicate, ProcessSteps, ProcessStep, ProcessIteration, RefreshTimelineItems,
            stopRequested, setEvents, hb, hg, eq_comm]
        · cases hc : env.channelGroup
          · refine ⟨9, by omega, ?_⟩
            simp [List.replicate, ProcessSteps, ProcessStep, ProcessIteration,
              RefreshTimelineItems, stopRequested, setEvents, hb, hg, hc, eq_comm]
          · refine ⟨12, by omega, ?_⟩
            simp [List.replicate, ProcessSteps, ProcessStep, ProcessIteration,
              RefreshTimelineItems, stopRequested, setEvents, hb, hg, hc, eq_comm]
    · cases flag
      · refine ⟨8, by omega, ?_⟩
        simp [List.replicate, ProcessSteps, ProcessStep, ProcessIteration, RefreshTimelineItems,
          stopRequested, setEvents, hb, eq_comm]
      · cases hg : env.gridControl
        · refine ⟨9, by omega, ?_⟩
          simp [List.replicate, ProcessSteps, ProcessStep, ProcessIteration, RefreshTimelineItems,
            stopRequested, setEvents, hb, hg, eq_comm]
        · cases hc : env.channelGroup
          · refine ⟨9, by omega, ?_⟩
            simp [List.replicate, ProcessSteps, ProcessStep, ProcessIteration,
              RefreshTimelineItems, stopRequested, setEvents, hb, hg, hc, eq_comm]
          · refine ⟨12, by omega, ?_⟩
            simp [List.replicate, ProcessSteps, ProcessStep, ProcessIteration,
              RefreshTimelineItems, stopRequested, setEvents, hb, hg, hc, eq_comm]

/-- C11, as stated, fails twice. The worker stands inside a pass of its loop, past the loop
condition and before its call of `RefreshTimelineItems`, with a refresh requested and nothing
pending. `Stop` returns with the worker still at that place, not returned from `Process`; four
steps of the worker later, after `Stop` has returned, `RefreshTimelineItems` has cleared the
flag and published its timeline in the window. And once the worker has returned from
`Process`, having reset `m_ready`, a second call of `Stop` sets `m_ready` again: it does change
something. -/
theorem C11_synchronous_stop_counterexample :
    sampleRun.state.window.m_newTimeline = none ∧
    sampleRun.state.window.m_bRefreshTimelineItems = true ∧
    (stopCall [] sampleRun).map (fun r => r.point) = some ProcessPoint.resetDone ∧
    (stopCall [] sampleRun).map
        (fun r => (ProcessSteps (List.replicate 4 (sampleEnv, 3)) r).1.state.window.m_newTimeline)
      = some (some [10, 11]) ∧
    (stopCall [] sampleRun).map
        (fun r => (ProcessSteps (List.replicate 4 (sampleEnv, 3))
          r).1.state.window.m_bRefreshTimelineItems)
      = some false ∧
    (stopCall [] sampleRun).map
        (fun r => (ProcessSteps (List.replicate 8 (sampleEnv, 3)) r).1.point)
      = some ProcessPoint.returned ∧
    (stopCall [] sampleRun).map
        (fun r => (ProcessSteps (List.replicate 8 (sampleEnv, 3))
          r).1.state.window.m_refreshTimelineItemsThread)
      = some (some ⟨true, false, true⟩) ∧
    ((stopCall [] sampleRun).bind
        (fun r => stopCall [] (ProcessSteps (List.replicate 8 (sampleEnv, 3)) r).1)).map
        (fun r => r.state.window.m_refreshTimelineItemsThread)
      = some (some ⟨true, true, true⟩) := by
  decide

/-- C11, amended. Stop without join: with the worker's thread object in place, a call of
`Stop` raises the stop flag, sets `m_ready`, leaves `m_done` and everything else in the window
as it is, and returns at once with the worker where it stands (`StopThread(false)`). A refresh
cycle in flight goes on as without the call: at its places (the two locked blocks and the
unlocked part of `RefreshTimelineItems`, the sending of the message) the worker's next step is
the one it takes without `Stop`. From then on, with no other thread acting, the worker enters
no new pass of the loop and has returned from `Process` after at most eight steps, and it
sends a message only if it stood right at the sending when `Stop` was called. A second call of
`Stop` made at once changes nothing; made later, with the stop flag still raised, it sets
`m_ready` and changes nothing else. -/
theorem C11_synchronous_stop (reads reads2 : List (RefreshEnv Item Group × Int))
    (env : RefreshEnv Item Group) (itemsCount : Int)
    (r : ProcessRun Item Group) (t : CPVRRefreshTimelineItemsThread)
    (ht : r.state.window.m_refreshTimelineItemsThread = some t) (hlen : 8 ≤ reads2.length) :
    stopCall reads r = some (onWindow StopRefreshTimelineItemsThread r) ∧
    (onWindow StopRefreshTimelineItemsThread r).point = r.point ∧
    (onWindow StopRefreshTimelineItemsThread r).state.window =
      { r.state.window with m_refreshTimelineItemsThread := some ⟨true, true, t.m_done⟩ } ∧
    (cycleInFlight r.point = true →
      ProcessStep env itemsCount (onWindow StopRefreshTimelineItemsThread r) =
        (onWindow StopRefreshTimelineItemsThread (ProcessStep env itemsCount r).1,
         (ProcessStep env itemsCount r).2)) ∧
    (ProcessSteps reads2 (onWindow StopRefreshTimelineItemsThread r)).1.point
      = ProcessPoint.returned ∧
    (∀ e ∈ (ProcessSteps reads2 (onWindow StopRefreshTimelineItemsThread r)).2,
      e ≠ ProcessEvent.passEntered) ∧
    (r.point ≠ ProcessPoint.send →
      ∀ e ∈ (ProcessSteps reads2 (onWindow StopRefreshTimelineItemsThread r)).2,
        e ≠ ProcessEvent.messageSent) ∧
    stopCall reads (onWindow StopRefreshTimelineItemsThread r)
      = some (onWindow StopRefreshTimelineItemsThread r) ∧
    (∀ (later : ProcessRun Item Group) (u : CPVRRefreshTimelineItemsThread),
      later.state.window.m_refreshTimelineItemsThread = some u → u.m_bStop = true →
      stopCall reads later = some (onWindow
        (fun w => { w with m_refreshTimelineItemsThread := some { u with m_ready := true } })
        later)) := by
  have hwin : (onWindow StopRefreshTimelineItemsThread r).state.window =
      { r.state.window with m_refreshTimelineItemsThread := some ⟨true, true, t.m_done⟩ } := by
    simp [onWindow, StopRefreshTimelineItemsThread, ht, CPVRRefreshTimelineItemsThread.Stop]
  have hstop : stopRequested (onWindow StopRefreshTimelineItemsThread r).state.window = true := by
    rw [hwin]; rfl
  have hidem : onWindow StopRefreshTimelineItemsThread (onWindow StopRefreshTimelineItemsThread r)
      = onWindow StopRefreshTimelineItemsThread r := by
    simp [onWindow, StopRefreshTimelineItemsThread, ht, CPVRRefreshTimelineItemsThread.Stop]
  have hsteps : stepsToReturn (onWindow StopRefreshTimelineItemsThread r).point ≤ reads2.length :=
    le_trans (stepsToReturn_le_eight _) hlen
  obtain ⟨hp, hpass, hmsg⟩ := ProcessSteps_stopped reads2 _ hstop hsteps
  refine ⟨stopCall_eq reads r, rfl, hwin, ProcessStep_in_flight env itemsCount r, hp, hpass,
    hmsg, ?_, ?_⟩
  · rw [stopCall_eq, hidem]
  · intro later u hu hustop
    rw [stopCall_eq]
    obtain ⟨ustop, uready, udone⟩ := u
    simp only at hustop
    subst hustop
    simp [onWindow, StopRefreshTimelineItemsThread, hu, CPVRRefreshTimelineItemsThread.Stop]

/-- Witness of C11 amended: `Stop` called while the worker stands past the loop condition and
before its call of `RefreshTimelineItems`; eight steps later the worker has returned from
`Process`, having entered no new pass. -/
theorem C11_synchronous_stop_witness :
    stopCall [] sampleRun = some (onWindow StopRefreshTimelineItemsThread sampleRun) ∧
    (onWindow StopRefreshTimelineItemsThread sampleRun).state.window.m_refreshTimelineItemsThread
      = some ⟨true, true, false⟩ ∧
    (ProcessSteps (List.replicate 8 (sampleEnv, 3))
      (onWindow StopRefreshTimelineItemsThread sampleRun)).1.point = ProcessPoint.returned :=
  have h := C11_synchronous_stop [] (List.replicate 8 (sampleEnv, 3)) sampleEnv 3 sampleRun
    CPVRRefreshTimelineItemsThread.create rfl (by decide)
  ⟨h.1, congrArg (fun w => w.m_refreshTimelineItemsThread) h.2.2.1, h.2.2.2.2.1⟩

end PVR
